import Mathlib

/-!
# twitch-minecraft-backend: webhook verification, normalisation, live event buffer

A shallow embedding of `src/twitch-server/src/twitch.js` (`verifySignature`,
`sendToMinecraft`, `getAccessToken`, `getUserAccessToken`),
`src/twitch-server/src/routes/webhook.routes.js` (the `POST /:userId` handler),
`src/twitch-server/src/routes/events.routes.js` (`addEvent`, the stats and stream
routes) and the token functions and `updateUser` of
`src/twitch-server/src/database.postgres.js`, followed by theorems about them.

Conventions of the embedding
* JavaScript values are `JsVal`.  Numbers are restricted to doubles with an integer
  value (`Int`): an arithmetic result and a number literal are rounded to the nearest
  double (`roundDouble`).  Fractional numbers, `NaN` and infinities inside values and
  exponent notation are outside the model.
* A function that can throw returns `Except JsError _`.
* The runtime facilities the code calls but does not define (HMAC-SHA256,
  `Date` parsing and formatting) are the fields of a `Platform`; the theorems
  hold for every `Platform`.
* Module-level mutable maps (`recentEvents`, `eventClients`) and the observable
  effects (HMAC computations, outbound posts, writes to SSE clients) are the
  fields of `World`, passed explicitly.
* The `users` table is a `Store`; it and the exchanges made with the token
  endpoint are the fields of `TokenWorld`.  Of the query failures of the store, the
  token functions model the rejection of an expiry that does not fit its `BIGINT`
  column; a lost connection and a malformed `user_id` are outside their model.  The
  webhook and event routes reach the store through `Env.getUserById`, which may
  throw; `lookupUser` is the lookup in a table of given rows, which throws for an id
  that is not the text of a UUID, as the `UUID` column of `user_id` does.
-/

namespace TwitchBackend

/-! ## JavaScript values -/

/-- JavaScript values as they occur in parsed request bodies and in the objects
the handlers build.  `undefined` is the value of a missing property. -/
inductive JsVal where
  | undefined
  | null
  | bool (b : Bool)
  | num (n : Int)
  | str (s : String)
  | arr (xs : List JsVal)
  | obj (kvs : List (String × JsVal))

/-- Errors thrown by the runtime. -/
inductive JsError where
  | typeError (msg : String)
  | rangeError (msg : String)
  | error (msg : String)
  deriving DecidableEq, Repr

namespace JsVal

/-- JavaScript truthiness (`ToBoolean`). -/
def truthy : JsVal → Bool
  | undefined => false
  | null => false
  | bool b => b
  | num n => n != 0
  | str s => s != ""
  | arr _ => true
  | obj _ => true

/-- The operator `a || b`. -/
def or (a b : JsVal) : JsVal := if a.truthy then a else b

/-- Own-property lookup in a property list (first binding of the key). -/
def lookup (k : String) : List (String × JsVal) → JsVal
  | [] => undefined
  | (k1, v) :: rest => if k1 = k then v else lookup k rest

/-- Property read `v.k` (also what destructuring `const { k } = v` does).
Reading a property of `undefined` or `null` throws a `TypeError`.  Primitives and
arrays answer `undefined`: none of the property names this program reads
(`subscription`, `event`, `type`, `challenge`, the snake_case event fields,
`bits`, ...) is an inherited or array property. -/
def getProp (v : JsVal) (k : String) : Except JsError JsVal :=
  match v with
  | undefined => .error (.typeError ("Cannot read properties of undefined (reading " ++ k ++ ")"))
  | null => .error (.typeError ("Cannot read properties of null (reading " ++ k ++ ")"))
  | obj kvs => .ok (lookup k kvs)
  | _ => .ok undefined

/-- Property write `o[k] = v` on a property list: replaces the value of an
existing key in place, otherwise appends the key. -/
def objSet (kvs : List (String × JsVal)) (k : String) (v : JsVal) : List (String × JsVal) :=
  match kvs with
  | [] => [(k, v)]
  | (k1, v1) :: rest => if k1 = k then (k1, v) :: rest else (k1, v1) :: objSet rest k v

/-! ### Number and string formatting -/

/-- The character of a hexadecimal digit (lower case). -/
def hexDigit (n : Nat) : Char := Char.ofNat (if n < 10 then 48 + n else 87 + n)

/-- Decimal digits of a natural number; `fuel` bounds the number of digits. -/
def natDigits : Nat → Nat → List Char
  | 0, _ => []
  | fuel + 1, n => if n < 10 then [hexDigit n] else natDigits fuel (n / 10) ++ [hexDigit (n % 10)]

/-! ### Numbers as doubles -/

/-- How often a natural number must be halved to come below `2 ^ 53`; `fuel`
bounds the count. -/
def excessBits : Nat → Nat → Nat
  | 0, _ => 0
  | fuel + 1, a => if a < 2 ^ 53 then 0 else excessBits fuel (a / 2) + 1

/-- The integer value of the double nearest to an integer (round to nearest, ties
to even, 53 bits of precision): what an arithmetic result or a numeric literal
becomes as a JavaScript number.  Integers up to `2 ^ 53` in magnitude are exact.
Magnitudes from about `2 ^ 1024` on, where JavaScript gives `Infinity`, are outside
the model. -/
def roundDouble (n : Int) : Int :=
  let a := n.natAbs
  if a ≤ 2 ^ 53 then n
  else
    let e := excessBits a a
    let q := a / 2 ^ e
    let r := a % 2 ^ e
    let half := 2 ^ (e - 1)
    let q1 := if r > half ∨ (r = half ∧ q % 2 = 1) then q + 1 else q
    if n < 0 then - ((q1 * 2 ^ e : Nat) : Int) else ((q1 * 2 ^ e : Nat) : Int)

/-- The number of decimal digits of a natural number; `fuel` bounds it. -/
def decimalLength : Nat → Nat → Nat
  | 0, _ => 0
  | fuel + 1, v => if v < 10 then 1 else decimalLength fuel (v / 10) + 1

/-- The search of `Number::toString` for the shortest decimal: with `k`
significant digits out of `d`, the multiples of `10 ^ (d - k)` next to `v` are
tried; one that rounds to the double `v` is taken, the closer one of two, the one
with the even digit string at a tie; otherwise `k` grows.  `fuel` bounds `k`. -/
def shortestDecimalFrom : Nat → Nat → Nat → Nat → Nat
  | 0, _, _, v => v
  | fuel + 1, d, k, v =>
    let scale := 10 ^ (d - k)
    let lo := v / scale * scale
    let hi := lo + scale
    let okLo := decide (roundDouble (lo : Int) = (v : Int))
    let okHi := decide (roundDouble (hi : Int) = (v : Int))
    if okLo && okHi then
      if v - lo < hi - v then lo
      else if hi - v < v - lo then hi
      else if (v / scale) % 2 = 0 then lo else hi
    else if okLo then lo
    else if okHi then hi
    else shortestDecimalFrom fuel d (k + 1) v

/-- The integer that the decimal text of `Number.prototype.toString()` denotes for
a double with the integer value `v`, `2 ^ 53 < v < 10 ^ 21`: the shortest decimal
that rounds back to `v`, filled with zeros (for instance `1152921504606847000` for
`2 ^ 60`). -/
def shortestDecimal (v : Nat) : Nat :=
  shortestDecimalFrom (decimalLength v v) (decimalLength v v) 1 v

/-- The integer that the decimal text of `Number.prototype.toString()` denotes for
a number with the integer value `n`: `n` itself up to `2 ^ 53` in magnitude, the
shortest decimal that rounds back to it above. -/
def decimalOf (n : Int) : Int :=
  if n.natAbs ≤ 2 ^ 53 then n
  else if n < 0 then - (shortestDecimal n.natAbs : Int) else (shortestDecimal n.natAbs : Int)

/-- `Number.prototype.toString()` on a number with an integer value (below
`10 ^ 21`, where JavaScript switches to exponent notation): the digits of
`decimalOf`. -/
def intRepr (n : Int) : String :=
  let m := decimalOf n
  if m < 0 then String.mk ('-' :: natDigits (m.natAbs + 1) m.natAbs)
  else String.mk (natDigits (m.natAbs + 1) m.natAbs)

/-- `JSON.stringify` of one character of a string (`QuoteJSONString`). -/
def quoteChar (c : Char) : List Char :=
  if c = '"' then ['\\', '"']
  else if c = '\\' then ['\\', '\\']
  else if c.toNat = 8 then ['\\', 'b']
  else if c.toNat = 12 then ['\\', 'f']
  else if c = '\n' then ['\\', 'n']
  else if c = '\r' then ['\\', 'r']
  else if c = '\t' then ['\\', 't']
  else if c.toNat < 32 then
    ['\\', 'u', '0', '0', hexDigit (c.toNat / 16), hexDigit (c.toNat % 16)]
  else [c]

/-- `JSON.stringify` of a string: quoted and escaped. -/
def quote (s : String) : String :=
  String.mk ('"' :: (s.toList.flatMap quoteChar ++ ['"']))

mutual
/-- `JSON.stringify(v)`; `none` stands for the result `undefined`. -/
def stringify : JsVal → Option String
  | undefined => none
  | null => some "null"
  | bool true => some "true"
  | bool false => some "false"
  | num n => some (intRepr n)
  | str s => some (quote s)
  | arr xs => some ("[" ++ ",".intercalate (stringifyElems xs) ++ "]")
  | obj kvs => some ("\x7b" ++ ",".intercalate (stringifyFields kvs) ++ "\x7d")
/-- Array elements: `undefined` is written as `null`. -/
def stringifyElems : List JsVal → List String
  | [] => []
  | x :: xs => (stringify x).getD "null" :: stringifyElems xs
/-- Object members: a property whose value is `undefined` is omitted. -/
def stringifyFields : List (String × JsVal) → List String
  | [] => []
  | (k, v) :: kvs =>
    match stringify v with
    | none => stringifyFields kvs
    | some s => (quote k ++ ":" ++ s) :: stringifyFields kvs
end

/-- String concatenation with the result of `JSON.stringify`: the result
`undefined` is coerced to the text `undefined`. -/
def stringifyText (v : JsVal) : String := (stringify v).getD "undefined"

mutual
/-- `ToString` of a value, as applied by `+` and by `Array.prototype.join`. -/
def toStr : JsVal → String
  | undefined => "undefined"
  | null => "null"
  | bool true => "true"
  | bool false => "false"
  | num n => intRepr n
  | str s => s
  | arr xs => ",".intercalate (joinElems xs)
  | obj _ => "[object Object]"
/-- Elements of `Array.prototype.join`: `undefined` and `null` give the empty string. -/
def joinElems : List JsVal → List String
  | [] => []
  | undefined :: xs => "" :: joinElems xs
  | null :: xs => "" :: joinElems xs
  | x :: xs => toStr x :: joinElems xs
end

/-! ### Addition -/

/-- The operator `a + b` for a left operand that is a number or a string and a
right operand that is not `undefined` or `null` (the operands `totalValue += ...`
meets): addition of doubles when both are numbers (a boolean counts as 0 or 1),
string concatenation otherwise. -/
def add (a b : JsVal) : JsVal :=
  match a, b with
  | num x, num y => num (roundDouble (x + y))
  | num x, bool y => num (roundDouble (x + if y then 1 else 0))
  | num x, null => num x
  | x, y => str (toStr x ++ toStr y)

/-! ### JSON.parse -/

/-- JSON whitespace. -/
def isJsonWs (c : Char) : Bool := c = ' ' || c = '\n' || c = '\r' || c = '\t'

/-- Skips leading JSON whitespace. -/
def skipWs : List Char → List Char
  | [] => []
  | c :: cs => if isJsonWs c then skipWs cs else c :: cs

/-- Value of a hexadecimal digit. -/
def hexVal (c : Char) : Option Nat :=
  if '0' ≤ c ∧ c ≤ '9' then some (c.toNat - 48)
  else if 'a' ≤ c ∧ c ≤ 'f' then some (c.toNat - 87)
  else if 'A' ≤ c ∧ c ≤ 'F' then some (c.toNat - 55)
  else none

/-- The rest of a JSON string after its opening quote; `acc` holds the characters
read so far, newest first.  Escapes of surrogate halves are outside the model. -/
def parseStringBody : List Char → List Char → Option (String × List Char)
  | [], _ => none
  | c :: cs, acc =>
    if c = '"' then some (String.mk acc.reverse, cs)
    else if c = '\\' then
      match cs with
      | [] => none
      | e :: cs1 =>
        if e = '"' then parseStringBody cs1 ('"' :: acc)
        else if e = '\\' then parseStringBody cs1 ('\\' :: acc)
        else if e = '/' then parseStringBody cs1 ('/' :: acc)
        else if e = 'b' then parseStringBody cs1 (Char.ofNat 8 :: acc)
        else if e = 'f' then parseStringBody cs1 (Char.ofNat 12 :: acc)
        else if e = 'n' then parseStringBody cs1 ('\n' :: acc)
        else if e = 'r' then parseStringBody cs1 ('\r' :: acc)
        else if e = 't' then parseStringBody cs1 ('\t' :: acc)
        else if e = 'u' then
          match cs1 with
          | a :: b :: c2 :: d :: cs2 =>
            match hexVal a, hexVal b, hexVal c2, hexVal d with
            | some x, some y, some z, some w =>
              let n := ((x * 16 + y) * 16 + z) * 16 + w
              if 0xD800 ≤ n ∧ n < 0xE000 then none
              else parseStringBody cs2 (Char.ofNat n :: acc)
            | _, _, _, _ => none
          | _ => none
        else none
    else if c.toNat < 32 then none
    else parseStringBody cs (c :: acc)

/-- A run of decimal digits. -/
def parseDigits : List Char → Nat → Nat × List Char
  | [], acc => (acc, [])
  | c :: cs, acc =>
    if c.isDigit then parseDigits cs (acc * 10 + (c.toNat - 48)) else (acc, c :: cs)

/-- A JSON integer without its sign: no leading zero, and a fraction or exponent
part is outside the integer model (`none`). -/
def parseNat (cs : List Char) : Option (Nat × List Char) :=
  match cs with
  | [] => none
  | c :: rest =>
    if ¬ c.isDigit then none
    else
      match parseDigits (c :: rest) 0 with
      | (n, rest1) =>
        if c = '0' ∧ rest1 ≠ rest then none
        else
          match rest1 with
          | d :: _ => if d = '.' ∨ d = 'e' ∨ d = 'E' then none else some (n, rest1)
          | [] => some (n, rest1)

/-- Keys that JavaScript orders as array indices (decimal numerals); objects with
such keys are outside the model, whose objects keep insertion order. -/
def isIndexKey (k : String) : Bool := k != "" && k.toList.all Char.isDigit

mutual
/-- One JSON value; `fuel` bounds the nesting depth and the number of members.  A
number literal denotes the double nearest to it. -/
def parseValue : Nat → List Char → Option (JsVal × List Char)
  | 0, _ => none
  | fuel + 1, cs =>
    match skipWs cs with
    | [] => none
    | c :: rest =>
      if c = '{' then
        match skipWs rest with
        | '}' :: rest1 => some (obj [], rest1)
        | _ => parseMembers fuel rest []
      else if c = '[' then
        match skipWs rest with
        | ']' :: rest1 => some (arr [], rest1)
        | _ => parseElements fuel rest []
      else if c = '"' then
        match parseStringBody rest [] with
        | some (s, rest1) => some (str s, rest1)
        | none => none
      else if c = '-' then
        match parseNat rest with
        | some (n, rest1) => some (num (roundDouble (- (n : Int))), rest1)
        | none => none
      else if c.isDigit then
        match parseNat (c :: rest) with
        | some (n, rest1) => some (num (roundDouble (n : Int)), rest1)
        | none => none
      else
        match c :: rest with
        | 't' :: 'r' :: 'u' :: 'e' :: rest1 => some (bool true, rest1)
        | 'f' :: 'a' :: 'l' :: 's' :: 'e' :: rest1 => some (bool false, rest1)
        | 'n' :: 'u' :: 'l' :: 'l' :: rest1 => some (null, rest1)
        | _ => none
/-- The members of an object after `{` or `,`; a repeated key overwrites. -/
def parseMembers : Nat → List Char → List (String × JsVal) → Option (JsVal × List Char)
  | 0, _, _ => none
  | fuel + 1, cs, acc =>
    match skipWs cs with
    | '"' :: rest =>
      match parseStringBody rest [] with
      | none => none
      | some (k, rest1) =>
        if isIndexKey k then none
        else
          match skipWs rest1 with
          | ':' :: rest2 =>
            match parseValue fuel rest2 with
            | none => none
            | some (v, rest3) =>
              match skipWs rest3 with
              | ',' :: rest4 => parseMembers fuel rest4 (objSet acc k v)
              | '}' :: rest4 => some (obj (objSet acc k v), rest4)
              | _ => none
          | _ => none
    | _ => none
/-- The elements of an array after `[` or `,`. -/
def parseElements : Nat → List Char → List JsVal → Option (JsVal × List Char)
  | 0, _, _ => none
  | fuel + 1, cs, acc =>
    match parseValue fuel cs with
    | none => none
    | some (v, rest) =>
      match skipWs rest with
      | ',' :: rest1 => parseElements fuel rest1 (acc ++ [v])
      | ']' :: rest1 => some (arr (acc ++ [v]), rest1)
      | _ => none
end

/-- `JSON.parse(s)`; `none` stands for a thrown `SyntaxError` (or for a text
outside the integer model). -/
def jsonParse (s : String) : Option JsVal :=
  match parseValue (s.length + 1) s.toList with
  | some (v, rest) => if skipWs rest = [] then some v else none
  | none => none

end JsVal

open JsVal

/-- The middleware `express.json()` of `index.js` on a request with content type
`application/json`: an empty body leaves `req.body = {}`, otherwise the text must
start (after whitespace) with `{` or `[` (strict mode) and parse as JSON; `none`
means the middleware answers 400 and the route handler is not reached. -/
def expressJson (raw : String) : Option JsVal :=
  if raw = "" then some (obj [])
  else
    match skipWs raw.toList with
    | c :: _ => if c = '{' ∨ c = '[' then jsonParse raw else none
    | [] => none

/-! ## Runtime facilities -/

/-- The runtime functions the code calls and does not define. -/
structure Platform where
  /-- The text `crypto.createHmac(sha256, key).update(msg).digest(hex)`. -/
  hmacSha256Hex : String → String → String
  /-- The number `new Date(s).getTime()`; `none` stands for `NaN` (invalid date). -/
  dateParse : String → Option Int
  /-- The text `new Date(ms).toISOString()`. -/
  toISOString : Int → String

/-- UTF-8 encoding of one code point. -/
def utf8Encode (c : Nat) : List Nat :=
  if c < 0x80 then [c]
  else if c < 0x800 then [0xC0 + c / 64, 0x80 + c % 64]
  else if c < 0x10000 then [0xE0 + c / 4096, 0x80 + c / 64 % 64, 0x80 + c % 64]
  else [0xF0 + c / 262144, 0x80 + c / 4096 % 64, 0x80 + c / 64 % 64, 0x80 + c % 64]

/-- The bytes of `Buffer.from(s)` (UTF-8). -/
def bufferFrom (s : String) : List Nat := s.toList.flatMap (fun c => utf8Encode c.toNat)

/-- The call `crypto.timingSafeEqual(a, b)`: throws a `RangeError` when the two
buffers differ in byte length, otherwise tells whether they are equal. -/
def timingSafeEqual (a b : List Nat) : Except JsError Bool :=
  if a.length ≠ b.length then
    .error (.rangeError "Input buffers must have the same byte length")
  else .ok (a == b)

/-! ## Data model -/

/-- The record `database.getUserById` returns (`database.postgres.js`). -/
structure User where
  userId : String
  username : String
  passwordHash : String
  apiKey : String
  eventSubSecret : String
  twitchClientId : String
  twitchClientSecret : String
  minecraftServerUrl : String
  createdAt : String
  isActive : Bool
  twitchAccessToken : Option String
  twitchTokenExpiry : Option Int
  twitchRefreshToken : Option String
  twitchUserAccessToken : Option String
  twitchUserTokenExpiry : Option Int
  twitchUserRefreshToken : Option String

/-- An inbound request as the webhook route sees it: the path parameter, the
header lookup `req.headers[name]` (`none` is `undefined`), and `req.body` as the
JSON middleware left it. -/
structure Request where
  userId : String
  headers : String → Option String
  body : JsVal

/-- What the handler passes to `res`. -/
inductive ResBody where
  | json (v : JsVal)
  | send (v : JsVal)
  | empty

/-- The response of a route handler. -/
structure Response where
  status : Nat
  body : ResBody

/-- The object the switch of the webhook handler builds: `eventType` and the
properties of `data`, in source order. -/
structure EventData where
  eventType : String
  data : List (String × JsVal)

/-- The object `eventForDashboard` stored in the buffer. -/
structure Event where
  id : String
  eventType : String
  timestamp : String
  data : List (String × JsVal)
  userName : JsVal

/-- The event as a JavaScript object (property order of the source literal). -/
def Event.toJs (e : Event) : JsVal :=
  obj [("id", str e.id), ("eventType", str e.eventType), ("timestamp", str e.timestamp),
       ("data", obj e.data), ("userName", e.userName)]

/-- One outbound `axios.post` of `sendToMinecraft`: target, the body
`{eventType, data}` and the `X-User-ID` header. -/
structure SinkCall where
  url : String
  eventType : String
  data : List (String × JsVal)
  xUserId : String

/-- The module state of `events.routes.js` (`recentEvents`, `eventClients`; SSE
clients are named by numbers) and the effects observed so far, oldest first:
HMAC computations `(key, message)`, posts to the sink, chunks written to clients. -/
structure World where
  recentEvents : String → Option (List Event)
  eventClients : String → Option (List Nat)
  hmacCalls : List (String × String)
  sinkCalls : List SinkCall
  written : List (Nat × String)

/-- The inputs of one request that come from outside the handler: the clock
readings, the random suffix of the event id, the store and the sink. -/
structure Env where
  /-- The value of `Date.now()` in `verifySignature`. -/
  now : Int
  /-- The value of `Date.now()` in the event id. -/
  idNow : Int
  /-- The text `Math.random().toString(36).substr(2, 9)`. -/
  random : String
  /-- The instant of `new Date()` in the event timestamp. -/
  stampNow : Int
  /-- The call `database.getUserById`: the record, `none` for `null`, or a thrown error. -/
  getUserById : String → Except JsError (Option User)
  /-- The outcome of `axios.post`: `response.data`, or the error thrown on a
  network failure, a timeout or an error status. -/
  post : SinkCall → Except JsError JsVal

/-! ## twitch.js -/

/-- Falsiness of a header value in `!messageId`: `undefined` or the empty string. -/
def headerMissing (h : Option String) : Bool :=
  match h with
  | none => true
  | some s => s == ""

/-- The window test `Math.abs(currentTimestamp - messageTimestamp) > tenMinutesInMs`;
any comparison with `NaN` is false. -/
def outsideWindow (currentTimestamp : Int) (messageTimestamp : Option Int) : Bool :=
  match messageTimestamp with
  | none => false
  | some t => decide ((currentTimestamp - t).natAbs > 10 * 60 * 1000)

/-- The text `messageId + timestamp + body` that `verifySignature` hashes, with
`body = JSON.stringify(req.body)`. -/
def hmacMessage (messageId timestamp : String) (reqBody : JsVal) : String :=
  messageId ++ timestamp ++ stringifyText reqBody

/-- `TwitchService.verifySignature(req, eventSubSecret)`: the result (or the
thrown error) together with the HMAC computations performed. -/
def verifySignature (P : Platform) (currentTimestamp : Int) (req : Request)
    (eventSubSecret : String) : Except JsError Bool × List (String × String) :=
  let messageId := req.headers "twitch-eventsub-message-id"
  let timestamp := req.headers "twitch-eventsub-message-timestamp"
  let messageSignature := req.headers "twitch-eventsub-message-signature"
  if headerMissing messageId || headerMissing timestamp || headerMissing messageSignature then
    (.ok false, [])
  else
    let messageTimestamp := P.dateParse (timestamp.getD "")
    if outsideWindow currentTimestamp messageTimestamp then (.ok false, [])
    else
      let message := hmacMessage (messageId.getD "") (timestamp.getD "") req.body
      let expectedSignature := "sha256=" ++ P.hmacSha256Hex eventSubSecret message
      (timingSafeEqual (bufferFrom (messageSignature.getD "")) (bufferFrom expectedSignature),
        [(eventSubSecret, message)])

/-- The replacement `.replace(/\/+$/, empty)`: drops all trailing slashes. -/
def stripTrailingSlashes (s : String) : String :=
  String.mk (s.toList.reverse.dropWhile (fun c => c == '/')).reverse

/-- `TwitchService.sendToMinecraft(user, eventType, data)`: posts to the sink and
returns `response.data`, or rethrows what the post threw. -/
def sendToMinecraft (env : Env) (user : User) (eventType : String)
    (data : List (String × JsVal)) (w : World) : Except JsError JsVal × World :=
  let base := stripTrailingSlashes user.minecraftServerUrl
  let targetUrl := base ++ "/twitch-event"
  let call : SinkCall :=
    { url := targetUrl, eventType := eventType, data := data, xUserId := user.userId }
  (env.post call, { w with sinkCalls := w.sinkCalls ++ [call] })

/-! ## events.routes.js -/

/-- The chunk written to an SSE client for an event. -/
def sseChunk (event : Event) : String :=
  "data: " ++ stringifyText event.toJs ++ "\n\n"

/-- The buffer after `events.unshift(event)` and the pop of the last element when
the length exceeds 50. -/
def pushEvent (event : Event) (events : List Event) : List Event :=
  if (event :: events).length > 50 then (event :: events).dropLast else event :: events

/-- `addEvent(userId, event)`. -/
def addEvent (userId : String) (event : Event) (w : World) : World :=
  let events := (w.recentEvents userId).getD []
  let clients := (w.eventClients userId).getD []
  { w with
    recentEvents := Function.update w.recentEvents userId (some (pushEvent event events))
    written := w.written ++ clients.map (fun client => (client, sseChunk event)) }

/-- The reducer of `eventTypes`: `acc[event.eventType] = (acc[event.eventType] || 0) + 1`. -/
def countType (acc : List (String × JsVal)) (event : Event) : List (String × JsVal) :=
  objSet acc event.eventType (add (JsVal.or (lookup event.eventType acc) (num 0)) (num 1))

/-- One iteration of the `totalValue` loop of the stats route. -/
def addValue (totalValue : JsVal) (event : Event) : JsVal :=
  if event.eventType = "cheer" then
    add totalValue (JsVal.or (lookup "bits" event.data) (num 0))
  else if event.eventType = "subscribe" ∨ event.eventType = "gift_subscription" then
    add totalValue (num 5)
  else totalValue

/-- The `totalValue` of the stats route for a buffer. -/
def totalValue (events : List Event) : JsVal := events.foldl addValue (num 0)

/-- The body of error responses. -/
def errorBody (msg : String) : ResBody := .json (obj [("error", str msg)])

/-- The route `GET /:userId/stats`. -/
def statsHandler (env : Env) (userId : String) (w : World) : Response :=
  match env.getUserById userId with
  | .error _ => ⟨500, errorBody "Internal server error"⟩
  | .ok none => ⟨404, errorBody "User not found"⟩
  | .ok (some _) =>
    let events := (w.recentEvents userId).getD []
    ⟨200, .json (obj [("totalEvents", num events.length),
                      ("eventTypes", obj (events.foldl countType [])),
                      ("totalValue", totalValue events),
                      ("recentEvents", arr ((events.take 10).map Event.toJs))])⟩

/-! ## webhook.routes.js -/

/-- A case label of `switch (subscription.type)`: strict equality with a string. -/
def isType (v : JsVal) (label : String) : Bool :=
  match v with
  | str s => s == label
  | _ => false

/-- The `switch (subscription.type)` of the webhook handler: the `eventData` of a
supported type, `none` for the default branch, or the `TypeError` of reading a
field of an `event` that is `undefined` or `null`. -/
def switchType (subscriptionType event : JsVal) : Except JsError (Option EventData) :=
  if isType subscriptionType "channel.subscribe" then do
    let userName ← getProp event "user_name"
    let userId ← getProp event "user_id"
    let tier ← getProp event "tier"
    let isGift ← getProp event "is_gift"
    pure (some { eventType := "subscribe",
                 data := [("userName", userName), ("userId", userId), ("tier", tier),
                          ("isGift", isGift)] })
  else if isType subscriptionType "channel.subscription.gift" then do
    let userName ← getProp event "user_name"
    let userId ← getProp event "user_id"
    let total ← getProp event "total"
    let tier ← getProp event "tier"
    let cumulativeTotal ← getProp event "cumulative_total"
    pure (some { eventType := "gift_subscription",
                 data := [("userName", userName), ("userId", userId), ("total", total),
                          ("tier", tier), ("cumulativeTotal", cumulativeTotal)] })
  else if isType subscriptionType "channel.cheer" then do
    let userName ← getProp event "user_name"
    let userId ← getProp event "user_id"
    let bits ← getProp event "bits"
    let message ← getProp event "message"
    pure (some { eventType := "cheer",
                 data := [("userName", userName), ("userId", userId), ("bits", bits),
                          ("message", message)] })
  else if isType subscriptionType "channel.raid" then do
    let fromBroadcasterName ← getProp event "from_broadcaster_user_name"
    let fromBroadcasterId ← getProp event "from_broadcaster_user_id"
    let viewers ← getProp event "viewers"
    pure (some { eventType := "raid",
                 data := [("fromBroadcasterName", fromBroadcasterName),
                          ("fromBroadcasterId", fromBroadcasterId), ("viewers", viewers)] })
  else if isType subscriptionType "channel.follow" then do
    let userName ← getProp event "user_name"
    let userId ← getProp event "user_id"
    let followedAt ← getProp event "followed_at"
    pure (some { eventType := "follow",
                 data := [("userName", userName), ("userId", userId),
                          ("followedAt", followedAt)] })
  else pure none

/-- The reads at the head of the notification branch: the destructuring
`const { subscription, event } = req.body`, then `subscription.type`, then the switch. -/
def readNotification (body : JsVal) : Except JsError (Option EventData) := do
  let subscription ← getProp body "subscription"
  let event ← getProp body "event"
  let subscriptionType ← getProp subscription "type"
  switchType subscriptionType event

/-- The object `eventForDashboard` built after a successful forward. -/
def eventForDashboard (P : Platform) (env : Env) (eventData : EventData) : Event :=
  { id := intRepr env.idNow ++ env.random
    eventType := eventData.eventType
    timestamp := P.toISOString env.stampNow
    data := eventData.data
    userName := JsVal.or (lookup "userName" eventData.data)
      (JsVal.or (lookup "fromBroadcasterName" eventData.data) (str "Anonymous")) }

/-- The inner `try` of the notification branch: forward, then store for the
dashboard; a throw is caught and logged.  The handler answers 204 either way. -/
def forwardAndStore (P : Platform) (env : Env) (user : User) (userId : String)
    (eventData : EventData) (w : World) : World :=
  match sendToMinecraft env user eventData.eventType eventData.data w with
  | (.error _, w1) => w1
  | (.ok _, w1) => addEvent userId (eventForDashboard P env eventData) w1

/-- The route `POST /:userId` of `webhook.routes.js`.  The outer `catch` turns
any throw into status 500. -/
def webhookHandler (P : Platform) (env : Env) (req : Request) (w : World) : Response × World :=
  match env.getUserById req.userId with
  | .error _ => (⟨500, errorBody "Internal server error"⟩, w)
  | .ok none => (⟨404, errorBody "User not found"⟩, w)
  | .ok (some user) =>
    let messageType := req.headers "twitch-eventsub-message-type"
    let verdict := verifySignature P env.now req user.eventSubSecret
    let w1 := { w with hmacCalls := w.hmacCalls ++ verdict.2 }
    match verdict.1 with
    | .error _ => (⟨500, errorBody "Internal server error"⟩, w1)
    | .ok false => (⟨403, errorBody "Invalid signature"⟩, w1)
    | .ok true =>
      if messageType = some "webhook_callback_verification" then
        match getProp req.body "challenge" with
        | .error _ => (⟨500, errorBody "Internal server error"⟩, w1)
        | .ok challenge => (⟨200, .send challenge⟩, w1)
      else if messageType = some "revocation" then (⟨204, .empty⟩, w1)
      else if messageType = some "notification" then
        match readNotification req.body with
        | .error _ => (⟨500, errorBody "Internal server error"⟩, w1)
        | .ok none => (⟨204, .empty⟩, w1)
        | .ok (some eventData) =>
          (⟨204, .empty⟩, forwardAndStore P env user req.userId eventData w1)
      else (⟨200, .empty⟩, w1)

/-! ## A concrete platform for evaluating the definitions -/

/-- Digits of a run of decimal characters, `none` when one is not a digit. -/
def digitsVal (cs : List Char) : Option Nat :=
  cs.foldl (fun acc c =>
    match acc with
    | some n => if c.isDigit then some (n * 10 + (c.toNat - 48)) else none
    | none => none) (some 0)

/-- Days from 1970-01-01 to the civil date `y-m-d` (for `y ≥ 1970`). -/
def daysFromCivil (y m d : Nat) : Nat :=
  let y1 := if m ≤ 2 then y - 1 else y
  let era := y1 / 400
  let yoe := y1 - era * 400
  let mp := if m > 2 then m - 3 else m + 9
  let doy := (153 * mp + 2) / 5 + d - 1
  let doe := yoe * 365 + yoe / 4 - yoe / 100 + doy
  era * 146097 + doe - 719468

/-- The time value of a date-time text of the exact form `YYYY-MM-DDTHH:mm:ssZ`
with a year from 1970 on; every other text is an invalid date here. -/
def isoDateParse (s : String) : Option Int :=
  match s.toList with
  | [y1, y2, y3, y4, '-', m1, m2, '-', d1, d2, 'T', h1, h2, ':', n1, n2, ':', s1, s2, 'Z'] =>
    match digitsVal [y1, y2, y3, y4], digitsVal [m1, m2], digitsVal [d1, d2],
          digitsVal [h1, h2], digitsVal [n1, n2], digitsVal [s1, s2] with
    | some y, some m, some d, some h, some n, some sec =>
      if 1970 ≤ y ∧ 1 ≤ m ∧ m ≤ 12 ∧ 1 ≤ d ∧ d ≤ 31 ∧ h < 24 ∧ n < 60 ∧ sec < 60 then
        some ((((daysFromCivil y m d * 24 + h) * 60 + n) * 60 + sec) * 1000 : Nat)
      else none
    | _, _, _, _, _, _ => none
  | _ => none

/-- A 64-digit hexadecimal text computed from key and message: a stand-in for
HMAC-SHA256 of the same output format, used to evaluate the definitions at
concrete inputs only. -/
def sampleDigest (key msg : String) : String :=
  let h := (key ++ "/" ++ msg).toList.foldl (fun a c => (a * 257 + c.toNat + 1) % 16 ^ 64) 0
  String.mk ((List.range 64).reverse.map (fun i => hexDigit (h / 16 ^ i % 16)))

/-- A platform with `isoDateParse` and the stand-in digest. -/
def samplePlatform : Platform :=
  { hmacSha256Hex := sampleDigest
    dateParse := isoDateParse
    toISOString := fun ms => intRepr ms }

/-! ## Concrete inputs -/

deriving instance DecidableEq for Except

/-- A tenant record. -/
def sampleUser : User :=
  { userId := "11111111-1111-4111-8111-111111111111", username := "alice", passwordHash := "", apiKey := "k-1",
    eventSubSecret := "s3cret", twitchClientId := "cid", twitchClientSecret := "csec",
    minecraftServerUrl := "http://mc.example:8080/",
    createdAt := "2023-11-01T00:00:00.000Z", isActive := true,
    twitchAccessToken := none, twitchTokenExpiry := none, twitchRefreshToken := none,
    twitchUserAccessToken := none, twitchUserTokenExpiry := none,
    twitchUserRefreshToken := none }

/-- A request to the tenant `sampleUser` with message id `msg-1` and the given message type,
signature header, timestamp header and parsed body. -/
def sampleRequest (messageType signature timestamp : String) (body : JsVal) : Request :=
  { userId := "11111111-1111-4111-8111-111111111111"
    headers := fun name =>
      [("twitch-eventsub-message-id", "msg-1"),
       ("twitch-eventsub-message-timestamp", timestamp),
       ("twitch-eventsub-message-signature", signature),
       ("twitch-eventsub-message-type", messageType)].lookup name
    body := body }

/-- The parsed body of a `channel.cheer` notification. -/
def cheerBody : JsVal :=
  obj [("subscription", obj [("type", str "channel.cheer")]),
       ("event", obj [("user_name", str "bob"), ("user_id", str "1"), ("bits", num 500),
                      ("message", str "hi")])]

/-- The signature header that `samplePlatform` expects for `cheerBody` sent as
`msg-1` at `2023-11-14T22:13:20Z` under the secret of `sampleUser`. -/
def cheerSignature : String :=
  "sha256=823c66d25d727c92fac905e687117ed0ea12a93f572fb8b2ed7303d39a4c5d25"

/-- The bytes of a UUID text from the byte with index `15 - k` on: two
hexadecimal digits each, a hyphen being skipped after a byte of odd index other
than the last. -/
def uuidBytes : Nat → List Char → Option (List Nat × List Char)
  | 0, cs => some ([], cs)
  | k + 1, c1 :: c2 :: cs =>
    match hexVal c1, hexVal c2 with
    | some h, some l =>
      let i := 15 - k
      let rest :=
        match cs with
        | '-' :: cs1 => if i % 2 = 1 ∧ i < 15 then cs1 else cs
        | _ => cs
      match uuidBytes k rest with
      | some (bytes, tail) => some ((h * 16 + l) :: bytes, tail)
      | none => none
    | _, _ => none
  | _ + 1, _ => none

/-- The input function of the PostgreSQL type `uuid`, which reads the parameter of
`WHERE user_id = $1`: an optional opening brace, sixteen bytes as `uuidBytes`
reads them, the closing brace when one was opened, and nothing more.  `none` is
the error `invalid input syntax for type uuid`. -/
def pgUuid (s : String) : Option (List Nat) :=
  match s.toList with
  | '{' :: cs =>
    match uuidBytes 16 cs with
    | some (bytes, ['}']) => some bytes
    | _ => none
  | cs =>
    match uuidBytes 16 cs with
    | some (bytes, []) => some bytes
    | _ => none

/-- `database.getUserById(userId)` against a `users` table with the given rows: the
query throws for an id that is not the text of a UUID, and otherwise returns the
record of the row whose `user_id` is that UUID, or `null`. -/
def lookupUser (rows : List User) (userId : String) : Except JsError (Option User) :=
  match pgUuid userId with
  | none => .error (.error "invalid input syntax for type uuid")
  | some bytes => .ok (rows.find? (fun row => decide (pgUuid row.userId = some bytes)))

/-- A store holding `sampleUser` only. -/
def sampleStore (userId : String) : Except JsError (Option User) :=
  lookupUser [sampleUser] userId

/-- An environment whose clock reads `now` and whose sink answers with `post`. -/
def sampleEnv (now : Int) (post : SinkCall → Except JsError JsVal) : Env :=
  { now := now, idNow := now, random := "k3x9q2m1z", stampNow := now
    getUserById := sampleStore, post := post }

/-- A sink that accepts every post. -/
def sinkOk (_ : SinkCall) : Except JsError JsVal := .ok (obj [("success", bool true)])

/-- A sink that is unreachable. -/
def sinkDown (_ : SinkCall) : Except JsError JsVal := .error (.error "connect ECONNREFUSED")

/-- A world with no buffered events, one SSE client (number 7) listening to
the tenant `sampleUser`, and no effects observed. -/
def freshWorld : World :=
  { recentEvents := fun _ => none
    eventClients := fun userId => if userId = "11111111-1111-4111-8111-111111111111" then some [7] else none
    hmacCalls := [], sinkCalls := [], written := [] }

/-- The wire text of a `channel.cheer` notification written with a blank after
each colon and comma; it parses to `cheerBody`. -/
def spacedCheerRaw : String :=
  "\x7b\"subscription\": \x7b\"type\": \"channel.cheer\"\x7d, \"event\": \x7b\"user_name\": \"bob\", \"user_id\": \"1\", \"bits\": 500, \"message\": \"hi\"\x7d\x7d"

/-- The case labels of `switch (subscription.type)` in the webhook handler. -/
def supportedTypes : List String :=
  ["channel.subscribe", "channel.subscription.gift", "channel.cheer", "channel.raid",
   "channel.follow"]

/-- The world after the calls `addEvent(userId, e1)`, ..., `addEvent(userId, en)`. -/
def addEvents (userId : String) (events : List Event) (w : World) : World :=
  events.foldl (fun w1 e => addEvent userId e w1) w

/-- The snapshot `recentEvents.get(userId) || []` the routes read. -/
def snapshot (w : World) (userId : String) : List Event := (w.recentEvents userId).getD []

/-- A follow event numbered `n`. -/
def sampleEvent (n : Nat) : Event :=
  { id := intRepr n, eventType := "follow", timestamp := "2023-11-14T22:13:20.000Z",
    data := [("userName", str "bob"), ("userId", str (intRepr n)), ("followedAt", undefined)],
    userName := str "bob" }

/-- The number a cheer event contributes according to the spec: its `data.bits`
when that is a number, 0 otherwise. -/
def specBits (e : Event) : Int :=
  match lookup "bits" e.data with
  | num n => n
  | _ => 0

/-- The aggregate value as the spec words it: the sum of `data.bits` over the cheer
events plus 5 for each subscribe and gift_subscription event. -/
def specTotalValue (events : List Event) : Int :=
  ((events.filter (fun e => e.eventType = "cheer")).map specBits).sum +
    5 * ((events.filter
      (fun e => e.eventType = "subscribe" ∨ e.eventType = "gift_subscription")).length : Int)

/-- A buffered event of the given type with the given `data`. -/
def statsEvent (eventType : String) (data : List (String × JsVal)) : Event :=
  { id := "1700000000000k3x9q2m1z", eventType := eventType,
    timestamp := "2023-11-14T22:13:20.000Z", data := data, userName := str "bob" }

/-- The buffer `[cheer(bits=100), subscribe, gift_subscription]`. -/
def statsBuffer : List Event :=
  [statsEvent "cheer" [("userName", str "bob"), ("userId", str "1"), ("bits", num 100),
                       ("message", str "hi")],
   statsEvent "subscribe" [("userName", str "bob"), ("userId", str "1"), ("tier", str "1000"),
                           ("isGift", bool false)],
   statsEvent "gift_subscription" [("userName", str "bob"), ("userId", str "1"),
                                   ("total", num 2), ("tier", str "1000"),
                                   ("cumulativeTotal", num 2)]]

/-! ## events.routes.js: the stream route -/

/-- The first chunk of the stream route, the connection acknowledgment. -/
def connectedChunk : String :=
  "data: " ++
    stringifyText (obj [("type", str "connected"),
                        ("message", str "Connected to event stream")]) ++ "\n\n"

/-- The route `GET /:userId/stream` for the connection whose response object is
`res`: for a known tenant it writes the acknowledgment and pushes `res` on the
client list of the tenant (created when absent), leaving the response open
(`none`); otherwise it answers 404, or 500 when the lookup throws. -/
def streamHandler (env : Env) (userId : String) (res : Nat) (w : World) :
    Option Response × World :=
  match env.getUserById userId with
  | .error _ => (some ⟨500, errorBody "Internal server error"⟩, w)
  | .ok none => (some ⟨404, errorBody "User not found"⟩, w)
  | .ok (some _) =>
    let clients := (w.eventClients userId).getD []
    (none,
      { w with
        written := w.written ++ [(res, connectedChunk)]
        eventClients := Function.update w.eventClients userId (some (clients ++ [res])) })

/-- The `close` handler the stream route installs for `res`: `indexOf` finds the
first occurrence and `splice(index, 1)` removes it; an absent list stays absent. -/
def closeHandler (userId : String) (res : Nat) (w : World) : World :=
  match w.eventClients userId with
  | none => w
  | some clients =>
    { w with eventClients := Function.update w.eventClients userId (some (clients.erase res)) }

/-- The client list `eventClients.get(userId) || []`. -/
def clientsOf (w : World) (userId : String) : List Nat := (w.eventClients userId).getD []

/-- The chunks written to client `res` in a log of writes, oldest first. -/
def writesTo (res : Nat) (log : List (Nat × String)) : List String :=
  (log.filter (fun entry => entry.1 == res)).map Prod.snd

/-- The `eventType` tags the webhook handler stores. -/
def eventTags : List String := ["subscribe", "gift_subscription", "cheer", "raid", "follow"]

/-- The keys of a property list. -/
def keysOf (kvs : List (String × JsVal)) : List String := kvs.map Prod.fst

/-! ## database.postgres.js and twitch.js: tokens -/

/-- The `users` table, by `user_id`.  The token functions are called with the id of
an authenticated tenant, which is the `user_id` of a row. -/
abbrev Store := String → Option User

/-- What the token endpoint is asked: the `params` of the `axios.post` to
`https://id.twitch.tv/oauth2/token`, by `grant_type`. -/
inductive TokenRequest where
  | clientCredentials (clientId clientSecret : String)
  | refreshToken (clientId clientSecret refreshToken : String)
  | authorizationCode (clientId clientSecret code redirectUri : String)
  deriving DecidableEq, Repr

/-- The `response.data` of a successful exchange: `access_token`, `expires_in` in
seconds (a number with an integer value), and `refresh_token` (`none` when the
property is absent). -/
structure TokenResponse where
  access_token : String
  expires_in : Int
  refresh_token : Option String

/-- The outside of one token call: the readings of `Date.now()` in the expiry test
and in the update, and the token endpoint (a rejected exchange throws). -/
structure TokenEnv where
  now : Int
  updateNow : Int
  exchange : TokenRequest → Except JsError TokenResponse

/-- The store and the exchanges performed so far, oldest first. -/
structure TokenWorld where
  users : Store
  exchanges : List TokenRequest

/-- The test `expiry && Date.now() > expiry` of `getTwitchToken` and
`getUserAccessToken`.  The column is a `BIGINT`, which the driver hands over as a
decimal text (truthy whenever it is not `NULL`) and `>` compares as a number.  A
clock reading is at most `8.64e15` in magnitude, below `2 ^ 53`, where comparing
with the double nearest to the stored integer and with the integer itself give the
same answer. -/
def expired (dateNow : Int) (expiry : Option Int) : Bool :=
  match expiry with
  | none => false
  | some e => decide (dateNow > e)

/-- Truthiness of a nullable text: not `null` and not empty. -/
def textTruthy (t : Option String) : Bool :=
  match t with
  | none => false
  | some s => s != ""

/-- The value `Date.now() + (expiresIn * 1000)` of the two token updates: the
product and the sum are doubles. -/
def tokenExpiry (dateNow expiresIn : Int) : Int :=
  roundDouble (dateNow + roundDouble (expiresIn * 1000))

/-- A number bound to a `BIGINT` column as a query parameter: the driver sends the
text of `Number.prototype.toString()`, the server stores the integer it denotes and
rejects a text outside the 64-bit range (as it rejects the exponent notation of the
numbers from `10 ^ 21` on); the query then throws. -/
def bigintParam (v : Int) : Except JsError Int :=
  if -(2 ^ 63) ≤ decimalOf v ∧ decimalOf v < 2 ^ 63 then .ok (decimalOf v)
  else .error (.error "value is out of range for type bigint")

namespace Database

/-- `database.getUserById(userId)` on the table. -/
def getUserById (db : Store) (userId : String) : Option User := db userId

/-- `database.updateTwitchToken(userId, accessToken, expiresIn, refreshToken)`:
the `UPDATE` of the three app-token columns of the row with that `user_id`; the
query throws when the expiry is rejected as `BIGINT`. -/
def updateTwitchToken (db : Store) (dateNow : Int) (userId accessToken : String)
    (expiresIn : Int) (refreshToken : Option String) : Except JsError Store :=
  match bigintParam (tokenExpiry dateNow expiresIn) with
  | .error err => .error err
  | .ok stored =>
    match db userId with
    | none => .ok db
    | some user =>
      .ok (Function.update db userId
        (some { user with
          twitchAccessToken := some accessToken
          twitchTokenExpiry := some stored
          twitchRefreshToken := refreshToken }))

/-- `database.getTwitchToken(userId)`; `none` is `null`. -/
def getTwitchToken (db : Store) (dateNow : Int) (userId : String) : Option String :=
  match getUserById db userId with
  | none => none
  | some user => if expired dateNow user.twitchTokenExpiry then none else user.twitchAccessToken

/-- `database.updateUserAccessToken(userId, accessToken, expiresIn, refreshToken)`:
the `UPDATE` of the three user-token columns of the row with that `user_id`; the
query throws when the expiry is rejected as `BIGINT`. -/
def updateUserAccessToken (db : Store) (dateNow : Int) (userId accessToken : String)
    (expiresIn : Int) (refreshToken : Option String) : Except JsError Store :=
  match bigintParam (tokenExpiry dateNow expiresIn) with
  | .error err => .error err
  | .ok stored =>
    match db userId with
    | none => .ok db
    | some user =>
      .ok (Function.update db userId
        (some { user with
          twitchUserAccessToken := some accessToken
          twitchUserTokenExpiry := some stored
          twitchUserRefreshToken := refreshToken }))

/-- `database.getUserAccessToken(userId)`; `none` is `null`. -/
def getUserAccessToken (db : Store) (dateNow : Int) (userId : String) : Option String :=
  match getUserById db userId with
  | none => none
  | some user =>
    if expired dateNow user.twitchUserTokenExpiry then none else user.twitchUserAccessToken

end Database

namespace TwitchService

/-- The error thrown when no user token is available and none could be refreshed. -/
def authorizationRequired : JsError :=
  .error "No user access token available. User needs to authorize via OAuth."

/-- `TwitchService.getAccessToken(userId)`: the cached app token, or a
client-credentials exchange whose token is stored and returned; a rejected
exchange, and a throw of the update after the exchange, is rethrown. -/
def getAccessToken (env : TokenEnv) (userId : String) (w : TokenWorld) :
    Except JsError String × TokenWorld :=
  match Database.getUserById w.users userId with
  | none => (.error (.error "User not found"), w)
  | some user =>
    let existingToken := Database.getTwitchToken w.users env.now userId
    if textTruthy existingToken then (.ok (existingToken.getD ""), w)
    else
      let request := TokenRequest.clientCredentials user.twitchClientId user.twitchClientSecret
      let w1 := { w with exchanges := w.exchanges ++ [request] }
      match env.exchange request with
      | .error err => (.error err, w1)
      | .ok data =>
        match Database.updateTwitchToken w1.users env.updateNow userId
            data.access_token data.expires_in none with
        | .error err => (.error err, w1)
        | .ok users => (.ok data.access_token, { w1 with users := users })

/-- `TwitchService.getUserAccessToken(userId)`: the cached user token, or a
refresh-token exchange whose result is stored and returned; a rejected refresh, and
a throw of the update after the refresh, is caught and logged, and then, as without
refresh token, the authorization error is thrown. -/
def getUserAccessToken (env : TokenEnv) (userId : String) (w : TokenWorld) :
    Except JsError String × TokenWorld :=
  match Database.getUserById w.users userId with
  | none => (.error (.error "User not found"), w)
  | some user =>
    let existingToken := Database.getUserAccessToken w.users env.now userId
    if textTruthy existingToken then (.ok (existingToken.getD ""), w)
    else if textTruthy user.twitchUserRefreshToken then
      let request := TokenRequest.refreshToken user.twitchClientId user.twitchClientSecret
        (user.twitchUserRefreshToken.getD "")
      let w1 := { w with exchanges := w.exchanges ++ [request] }
      match env.exchange request with
      | .error _ => (.error authorizationRequired, w1)
      | .ok data =>
        match Database.updateUserAccessToken w1.users env.updateNow userId
            data.access_token data.expires_in data.refresh_token with
        | .error _ => (.error authorizationRequired, w1)
        | .ok users => (.ok data.access_token, { w1 with users := users })
    else (.error authorizationRequired, w)

end TwitchService

/-- The user-token triple of a tenant in a store. -/
def userTokenTriple (db : Store) (userId : String) :
    Option (Option String × Option Int × Option String) :=
  (db userId).map
    (fun u => (u.twitchUserAccessToken, u.twitchUserTokenExpiry, u.twitchUserRefreshToken))

/-- The app-token triple of a tenant in a store. -/
def appTokenTriple (db : Store) (userId : String) :
    Option (Option String × Option Int × Option String) :=
  (db userId).map (fun u => (u.twitchAccessToken, u.twitchTokenExpiry, u.twitchRefreshToken))

/-- A table holding `sampleUser` with the given app token and expiry. -/
def appTokenStore (token : Option String) (expiry : Option Int) : Store :=
  fun userId =>
    if userId = "11111111-1111-4111-8111-111111111111" then
      some { sampleUser with twitchAccessToken := token, twitchTokenExpiry := expiry }
    else none

/-- A table holding `sampleUser` with the given user token, expiry and refresh token. -/
def userTokenStore (token : Option String) (expiry : Option Int) (refresh : Option String) :
    Store :=
  fun userId =>
    if userId = "11111111-1111-4111-8111-111111111111" then
      some { sampleUser with
        twitchUserAccessToken := token, twitchUserTokenExpiry := expiry,
        twitchUserRefreshToken := refresh }
    else none

/-- A token endpoint that grants `fresh-token` for 3600 seconds with refresh token
`fresh-refresh`. -/
def endpointOk (_ : TokenRequest) : Except JsError TokenResponse :=
  .ok { access_token := "fresh-token", expires_in := 3600, refresh_token := some "fresh-refresh" }

/-- A token endpoint that grants `fresh-token` for 9007199254740 seconds. -/
def endpointLong (_ : TokenRequest) : Except JsError TokenResponse :=
  .ok { access_token := "fresh-token", expires_in := 9007199254740,
        refresh_token := some "fresh-refresh" }

/-- A token endpoint whose grant carries the empty text as `access_token`, for 3600
seconds. -/
def endpointEmpty (_ : TokenRequest) : Except JsError TokenResponse :=
  .ok { access_token := "", expires_in := 3600, refresh_token := some "fresh-refresh" }

/-- A token endpoint that rejects every exchange. -/
def endpointRejects (_ : TokenRequest) : Except JsError TokenResponse :=
  .error (.error "Request failed with status code 400")

/-- The `eventTypes` object of the stats route for a buffer. -/
def eventTypes (events : List Event) : List (String × JsVal) := events.foldl countType []

/-- The property list `acc` tallies the list of tags `ts`: its keys are the tags
that occur, each once, and each is bound to its number of occurrences. -/
def Tallies (acc : List (String × JsVal)) (ts : List String) : Prop :=
  (keysOf acc).Nodup ∧ (∀ t, t ∈ keysOf acc ↔ t ∈ ts) ∧
    ∀ t, t ∈ ts → lookup t acc = num (ts.count t : Nat)

/-- A world whose buffer for the tenant `sampleUser` is `statsBuffer`. -/
def statsWorld : World :=
  { freshWorld with
    recentEvents := fun userId => if userId = "11111111-1111-4111-8111-111111111111" then some statsBuffer else none }

/-- The parsed body of a verification challenge. -/
def challengeBody : JsVal := obj [("challenge", str "abc123")]

/-- The signature header that `samplePlatform` expects for `challengeBody` sent as
`msg-1` at `2023-11-14T22:13:20Z` under the secret of `sampleUser`. -/
def challengeSignature : String :=
  "sha256=affc10c54847aaef9dea644119040e2b4d07b66421e1519047a6108a3a5e62ab"

/-- The parsed body of a notification of a type the switch has no case for. -/
def channelUpdateBody : JsVal :=
  obj [("subscription", obj [("type", str "channel.update")]),
       ("event", obj [("title", str "hello")])]

/-- The signature header that `samplePlatform` expects for `channelUpdateBody` sent
as `msg-1` at `2023-11-14T22:13:20Z` under the secret of `sampleUser`. -/
def channelUpdateSignature : String :=
  "sha256=fefa590ef93a62b4ed9d1ac288fe6bbd1c4bc055abbf7d8011751fa33dcae11d"

/-- A token world holding `sampleUser` without any token, no exchange made. -/
def noTokenWorld : TokenWorld := { users := appTokenStore none none, exchanges := [] }

/-- The world after `getAccessToken` obtained `fresh-token` at `1700000000000`. -/
def issuedWorld : TokenWorld :=
  (TwitchService.getAccessToken
    { now := 1700000000000, updateNow := 1700000000000, exchange := endpointOk }
    "11111111-1111-4111-8111-111111111111" noTokenWorld).2

/-- A world in which clients 7, 8 and 9 registered, in this order, for the tenant
`sampleUser` and client 5 for a second tenant. -/
def listenersWorld : World :=
  { recentEvents := fun _ => none
    eventClients := fun userId =>
      if userId = "11111111-1111-4111-8111-111111111111" then some [7, 8, 9] else if userId = "22222222-2222-4222-8222-222222222222" then some [5] else none
    hmacCalls := [], sinkCalls := [], written := [] }

/-! ## database.postgres.js: updateUser -/

/-- The constant `allowedFields` of `updateUser`. -/
def allowedFields : List String :=
  ["minecraft_server_url", "twitch_client_id", "twitch_client_secret"]

/-- The replacement `key.replace(/([A-Z])/g, '_$1')`: an underscore before each
letter `A` to `Z`. -/
def underscoreCapitals (key : String) : String :=
  String.mk (key.toList.flatMap (fun c => if 'A' ≤ c ∧ c ≤ 'Z' then ['_', c] else [c]))

/-- The column name `dbKey` of a key of `updates`; `toLowerCase` is the method of
the runtime. -/
def dbKeyOf (toLowerCase : String → String) (key : String) : String :=
  toLowerCase (underscoreCapitals key)

/-- `String.prototype.toLowerCase` on a text of ASCII characters. -/
def asciiLower (s : String) : String := String.mk (s.toList.map Char.toLower)

/-- The variables `fields`, `values` and `paramIndex` of `updateUser`. -/
structure UpdateState where
  fields : List String
  values : List JsVal
  paramIndex : Nat

/-- One iteration of the loop over `Object.entries(updates)`. -/
def updateStep (toLowerCase : String → String) (st : UpdateState) (entry : String × JsVal) :
    UpdateState :=
  let dbKey := dbKeyOf toLowerCase entry.1
  if allowedFields.contains dbKey then
    { fields := st.fields ++ [dbKey ++ " = $" ++ intRepr st.paramIndex]
      values := st.values ++ [entry.2]
      paramIndex := st.paramIndex + 1 }
  else st

/-- The loop of `updateUser` over the entries of `updates`. -/
def updateLoop (toLowerCase : String → String) (updates : List (String × JsVal)) :
    UpdateState :=
  updates.foldl (updateStep toLowerCase) { fields := [], values := [], paramIndex := 1 }

/-- A statement passed to `pool.query` with its parameter values. -/
structure Query where
  text : String
  values : List JsVal

/-- `database.updateUser(userId, updates)` for the property list of `updates`: the
returned boolean and the statement issued, if any. -/
def updateUser (toLowerCase : String → String) (userId : String)
    (updates : List (String × JsVal)) : Bool × Option Query :=
  let st := updateLoop toLowerCase updates
  if st.fields.length = 0 then (false, none)
  else
    (true,
      some { text := "UPDATE users SET " ++ ", ".intercalate st.fields ++
                       " WHERE user_id = $" ++ intRepr st.paramIndex
             values := st.values ++ [str userId] })

/-- The entries of `updates` whose column name is allowed, in order. -/
def allowedEntries (toLowerCase : String → String) (updates : List (String × JsVal)) :
    List (String × JsVal) :=
  updates.filter (fun entry => allowedFields.contains (dbKeyOf toLowerCase entry.1))

/-- The `SET` items for a list of allowed entries, numbered from `start`. -/
def setItems (toLowerCase : String → String) :
    Nat → List (String × JsVal) → List String
  | _, [] => []
  | start, entry :: rest =>
    (dbKeyOf toLowerCase entry.1 ++ " = $" ++ intRepr start) ::
      setItems toLowerCase (start + 1) rest

/-- The signature header that `samplePlatform` expects for `cheerBody` sent as
`msg-1` with the timestamp header `not-a-date` under the secret of `sampleUser`. -/
def undatedCheerSignature : String :=
  "sha256=233d2eb10f58728c71e97748fd4e48cbe9f3c68c36ce42f0561bce217ec06491"

/-- A world in which the second tenant has `statsBuffer` buffered and client 5
listening, and the tenant `sampleUser` has clients 7, 8 and 9. -/
def twoTenantWorld : World :=
  { listenersWorld with
    recentEvents := fun userId => if userId = "22222222-2222-4222-8222-222222222222" then some statsBuffer else none }

/-- The record of `sampleUser` with app token `app-old` and user token `user-old`
on file. -/
def tokenUser : User :=
  { sampleUser with
    twitchAccessToken := some "app-old", twitchTokenExpiry := some 1690000000000,
    twitchUserAccessToken := some "user-old",
    twitchUserTokenExpiry := some 1690000000000,
    twitchUserRefreshToken := some "r-1" }

/-- A table holding `tokenUser` and a second tenant. -/
def twoTenantStore : Store :=
  fun userId =>
    if userId = "11111111-1111-4111-8111-111111111111" then some tokenUser
    else if userId = "22222222-2222-4222-8222-222222222222" then
      some { sampleUser with userId := "22222222-2222-4222-8222-222222222222", username := "carol", apiKey := "k-2" }
    else none

/-- The table `twoTenantStore` after the app token `app-new`, granted for 3600
seconds, was stored for `tokenUser` at `1700000000000`. -/
def appUpdatedStore : Store :=
  Function.update twoTenantStore "11111111-1111-4111-8111-111111111111"
    (some { tokenUser with
      twitchAccessToken := some "app-new", twitchTokenExpiry := some 1700003600000,
      twitchRefreshToken := none })

/-- The table `twoTenantStore` after the user token `user-new` with refresh token
`r-2`, granted for 3600 seconds, was stored for `tokenUser` at `1700000000000`. -/
def userUpdatedStore : Store :=
  Function.update twoTenantStore "11111111-1111-4111-8111-111111111111"
    (some { tokenUser with
      twitchUserAccessToken := some "user-new",
      twitchUserTokenExpiry := some 1700003600000,
      twitchUserRefreshToken := some "r-2" })

/-! ## Lemmas about `verifySignature` -/

set_option maxRecDepth 100000

theorem timingSafeEqual_self (a : List Nat) : timingSafeEqual a a = .ok true := by
  simp [timingSafeEqual]

theorem timingSafeEqual_length_ne (a b : List Nat) (h : a.length ≠ b.length) :
    timingSafeEqual a b = .error (.rangeError "Input buffers must have the same byte length") := by
  simp [timingSafeEqual, h]

/-- With the three headers present and non-empty, `verifySignature` is the window
test followed by the comparison with the expected signature. -/
theorem verifySignature_present (P : Platform) (now : Int) (req : Request) (secret : String)
    (mid ts sig : String)
    (hmid : req.headers "twitch-eventsub-message-id" = some mid) (hmid0 : mid ≠ "")
    (hts : req.headers "twitch-eventsub-message-timestamp" = some ts) (hts0 : ts ≠ "")
    (hsig : req.headers "twitch-eventsub-message-signature" = some sig) (hsig0 : sig ≠ "") :
    verifySignature P now req secret =
      if outsideWindow now (P.dateParse ts) then (.ok false, [])
      else
        (timingSafeEqual (bufferFrom sig)
            (bufferFrom ("sha256=" ++ P.hmacSha256Hex secret (hmacMessage mid ts req.body))),
          [(secret, hmacMessage mid ts req.body)]) := by
  simp [verifySignature, hmid, hts, hsig, headerMissing, hmid0, hts0, hsig0]

/-! ## Theorems -/

/-- A request whose signature check returns false is answered 403; nothing is
posted, buffered or written. -/
theorem webhookHandler_rejected (P : Platform) (env : Env) (req : Request) (w : World)
    (user : User)
    (huser : env.getUserById req.userId = .ok (some user))
    (hsig : (verifySignature P env.now req user.eventSubSecret).1 = .ok false) :
    (webhookHandler P env req w).1.status = 403 ∧
    (webhookHandler P env req w).2.sinkCalls = w.sinkCalls ∧
    (webhookHandler P env req w).2.recentEvents = w.recentEvents ∧
    (webhookHandler P env req w).2.written = w.written := by
  simp [webhookHandler, huser, hsig]

/-- C1 (code defect): `verifySignature` does not return a boolean for every input
with the three headers present.  When the timestamp passes the window test and the
signature header differs in byte length from the expected signature,
`crypto.timingSafeEqual` throws a `RangeError` instead of the function returning
false. -/
theorem verifySignature_throws_on_signature_of_other_length (P : Platform) (now : Int)
    (req : Request) (secret : String) (mid ts sig : String)
    (hmid : req.headers "twitch-eventsub-message-id" = some mid) (hmid0 : mid ≠ "")
    (hts : req.headers "twitch-eventsub-message-timestamp" = some ts) (hts0 : ts ≠ "")
    (hsig : req.headers "twitch-eventsub-message-signature" = some sig) (hsig0 : sig ≠ "")
    (hwin : outsideWindow now (P.dateParse ts) = false)
    (hlen : (bufferFrom sig).length ≠
      (bufferFrom ("sha256=" ++
        P.hmacSha256Hex secret (mid ++ ts ++ stringifyText req.body))).length) :
    (verifySignature P now req secret).1
      = .error (.rangeError "Input buffers must have the same byte length") := by
  rw [verifySignature_present P now req secret mid ts sig hmid hmid0 hts hts0 hsig hsig0, hwin]
  exact timingSafeEqual_length_ne _ _ hlen

/-- Witness of C1: the signature header `sha256=abc` (10 bytes against 71) on the
cheer message, the clock at the instant of the timestamp. -/
theorem verifySignature_throws_on_signature_of_other_length_witness :
    (verifySignature samplePlatform 1700000000000
        (sampleRequest "notification" "sha256=abc" "2023-11-14T22:13:20Z" cheerBody)
        "s3cret").1
      = .error (.rangeError "Input buffers must have the same byte length") :=
  verifySignature_throws_on_signature_of_other_length samplePlatform 1700000000000
    (sampleRequest "notification" "sha256=abc" "2023-11-14T22:13:20Z" cheerBody) "s3cret"
    "msg-1" "2023-11-14T22:13:20Z" "sha256=abc"
    (by decide) (by decide) (by decide) (by decide) (by decide) (by decide) (by decide)
    (by decide)

/-- C2 (code defect): a request to a known tenant whose signature header is
present, passes the window test and differs in byte length from the expected
signature is answered with status 500, not 403.  Nothing is posted to the sink and
no buffer changes. -/
theorem webhookHandler_signature_of_other_length_gives_500 (P : Platform) (env : Env)
    (req : Request) (w : World) (user : User) (mid ts sig : String)
    (huser : env.getUserById req.userId = .ok (some user))
    (hmid : req.headers "twitch-eventsub-message-id" = some mid) (hmid0 : mid ≠ "")
    (hts : req.headers "twitch-eventsub-message-timestamp" = some ts) (hts0 : ts ≠ "")
    (hsig : req.headers "twitch-eventsub-message-signature" = some sig) (hsig0 : sig ≠ "")
    (hwin : outsideWindow env.now (P.dateParse ts) = false)
    (hlen : (bufferFrom sig).length ≠
      (bufferFrom ("sha256=" ++
        P.hmacSha256Hex user.eventSubSecret (mid ++ ts ++ stringifyText req.body))).length) :
    (webhookHandler P env req w).1.status = 500 ∧
    (webhookHandler P env req w).2.sinkCalls = w.sinkCalls ∧
    (webhookHandler P env req w).2.recentEvents = w.recentEvents ∧
    (webhookHandler P env req w).2.written = w.written := by
  have hv : (verifySignature P env.now req user.eventSubSecret).1
      = .error (.rangeError "Input buffers must have the same byte length") := by
    rw [verifySignature_present P env.now req user.eventSubSecret mid ts sig
      hmid hmid0 hts hts0 hsig hsig0, hwin]
    exact timingSafeEqual_length_ne _ _ hlen
  simp [webhookHandler, huser, hv]

/-- Witness of C2: the cheer notification sent to the tenant `sampleUser` with the signature
header `sha256=abc`. -/
theorem webhookHandler_signature_of_other_length_gives_500_witness :
    (webhookHandler samplePlatform (sampleEnv 1700000000000 sinkOk)
        (sampleRequest "notification" "sha256=abc" "2023-11-14T22:13:20Z" cheerBody)
        freshWorld).1.status = 500 :=
  (webhookHandler_signature_of_other_length_gives_500 samplePlatform
    (sampleEnv 1700000000000 sinkOk)
    (sampleRequest "notification" "sha256=abc" "2023-11-14T22:13:20Z" cheerBody) freshWorld
    sampleUser "msg-1" "2023-11-14T22:13:20Z" "sha256=abc"
    rfl (by decide) (by decide) (by decide) (by decide) (by decide) (by decide) (by decide)
    (by decide)).1

/-- C3 (code defect): the text fed to the HMAC is
`messageId ++ timestamp ++ JSON.stringify(req.body)`, a re-serialisation of the
parsed body, not the body as received.  The wire text `spacedCheerRaw` parses to
`cheerBody`, the hashed body is the compact serialisation, which differs from the
wire text, and the signature computed by the sender over the wire text is rejected. -/
theorem verifySignature_hashes_reserialized_body :
    expressJson spacedCheerRaw = some cheerBody ∧
    (verifySignature samplePlatform 1700000000000
        (sampleRequest "notification"
          ("sha256=" ++ sampleDigest "s3cret" ("msg-1" ++ "2023-11-14T22:13:20Z" ++ spacedCheerRaw))
          "2023-11-14T22:13:20Z" cheerBody) "s3cret")
      = (.ok false,
          [("s3cret", "msg-1" ++ "2023-11-14T22:13:20Z" ++ stringifyText cheerBody)]) ∧
    stringifyText cheerBody ≠ spacedCheerRaw := by
  refine ⟨by rfl, by decide, by decide⟩

/-- C4: when the timestamp header parses to an instant `t` with
`|now - t| > 10 minutes` (past or future), `verifySignature` returns false
whatever the signature header is, and no HMAC is computed; in particular at
`now - t = 11 minutes`.  At `now - t = 10 minutes` exactly the window test lets the
request through: the result is that of the signature comparison, and true for the
expected signature. -/
theorem verifySignature_window (P : Platform) (now : Int) (req : Request) (secret : String)
    (mid ts sig : String) (t : Int)
    (hmid : req.headers "twitch-eventsub-message-id" = some mid) (hmid0 : mid ≠ "")
    (hts : req.headers "twitch-eventsub-message-timestamp" = some ts) (hts0 : ts ≠ "")
    (hsig : req.headers "twitch-eventsub-message-signature" = some sig) (hsig0 : sig ≠ "")
    (ht : P.dateParse ts = some t) :
    (|now - t| > 10 * 60 * 1000 → verifySignature P now req secret = (.ok false, [])) ∧
    (now - t = 11 * 60 * 1000 → verifySignature P now req secret = (.ok false, [])) ∧
    (now - t = 10 * 60 * 1000 →
      verifySignature P now req secret =
        (timingSafeEqual (bufferFrom sig)
            (bufferFrom ("sha256=" ++ P.hmacSha256Hex secret (mid ++ ts ++ stringifyText req.body))),
          [(secret, mid ++ ts ++ stringifyText req.body)])) ∧
    (now - t = 10 * 60 * 1000 →
      sig = "sha256=" ++ P.hmacSha256Hex secret (mid ++ ts ++ stringifyText req.body) →
      (verifySignature P now req secret).1 = .ok true) := by
  have key := verifySignature_present P now req secret mid ts sig hmid hmid0 hts hts0 hsig hsig0
  rw [ht] at key
  have hout : ∀ h : |now - t| > 10 * 60 * 1000, outsideWindow now (some t) = true := by
    intro h
    rw [Int.abs_eq_natAbs] at h
    simp only [outsideWindow, decide_eq_true_eq]
    omega
  have hin : now - t = 10 * 60 * 1000 → outsideWindow now (some t) = false := by
    intro h
    simp only [outsideWindow, decide_eq_false_iff_not]
    omega
  refine ⟨?_, ?_, ?_, ?_⟩
  · intro h
    rw [key, hout h]; rfl
  · intro h
    have h1 : |now - t| > 10 * 60 * 1000 := by rw [h]; norm_num
    rw [key, hout h1]; rfl
  · intro h
    rw [key, hin h]; rfl
  · intro h hs
    rw [key, hin h, hs]
    simp [hmacMessage, timingSafeEqual_self]

/-- Witness of C4 on the sample platform: the correctly signed cheer message dated
`2023-11-14T22:13:20Z` is rejected by a clock 11 minutes later and accepted by a
clock exactly 10 minutes later. -/
theorem verifySignature_window_witness :
    verifySignature samplePlatform (1700000000000 + 11 * 60 * 1000)
        (sampleRequest "notification" cheerSignature "2023-11-14T22:13:20Z" cheerBody) "s3cret"
      = (.ok false, []) ∧
    (verifySignature samplePlatform (1700000000000 + 10 * 60 * 1000)
        (sampleRequest "notification" cheerSignature "2023-11-14T22:13:20Z" cheerBody)
        "s3cret").1 = .ok true :=
  ⟨(verifySignature_window samplePlatform (1700000000000 + 11 * 60 * 1000)
      (sampleRequest "notification" cheerSignature "2023-11-14T22:13:20Z" cheerBody) "s3cret"
      "msg-1" "2023-11-14T22:13:20Z" cheerSignature 1700000000000
      (by decide) (by decide) (by decide) (by decide) (by decide) (by decide)
      (by decide)).2.1 (by decide),
   (verifySignature_window samplePlatform (1700000000000 + 10 * 60 * 1000)
      (sampleRequest "notification" cheerSignature "2023-11-14T22:13:20Z" cheerBody) "s3cret"
      "msg-1" "2023-11-14T22:13:20Z" cheerSignature 1700000000000
      (by decide) (by decide) (by decide) (by decide) (by decide) (by decide)
      (by decide)).2.2.2 (by decide) (by decide)⟩

/-- C5: when one of the message-id, message-timestamp and message-signature
headers is absent or empty, `verifySignature` returns false and no HMAC is
computed, whatever the platform, the clock, the other headers, the body and the
secret are. -/
theorem verifySignature_missing_header (P : Platform) (now : Int) (req : Request)
    (secret : String)
    (h : headerMissing (req.headers "twitch-eventsub-message-id") = true ∨
         headerMissing (req.headers "twitch-eventsub-message-timestamp") = true ∨
         headerMissing (req.headers "twitch-eventsub-message-signature") = true) :
    verifySignature P now req secret = (.ok false, []) := by
  unfold verifySignature
  rcases h with h | h | h <;> simp [h]

/-- Witness of C5: a request without signature header, with an otherwise valid
message id and timestamp. -/
theorem verifySignature_missing_header_witness :
    verifySignature samplePlatform 1700000000000
        { userId := "11111111-1111-4111-8111-111111111111"
          headers := fun name =>
            [("twitch-eventsub-message-id", "msg-1"),
             ("twitch-eventsub-message-timestamp", "2023-11-14T22:13:20Z")].lookup name
          body := cheerBody } "s3cret"
      = (.ok false, []) :=
  verifySignature_missing_header samplePlatform 1700000000000 _ "s3cret"
    (Or.inr (Or.inr (by decide)))

/-! ### The event buffer -/

theorem pushEvent_eq_take (e : Event) (l : List Event) (h : l.length ≤ 50) :
    pushEvent e l = (e :: l).take 50 := by
  unfold pushEvent
  split
  · next hgt =>
    have hlen : l.length = 50 := by simp only [List.length_cons] at hgt; omega
    rw [List.dropLast_eq_take]
    simp [hlen]
  · next hle =>
    simp only [List.length_cons, not_lt] at hle
    exact (List.take_of_length_le (by simpa using hle)).symm

theorem snapshot_addEvent_self (u : String) (e : Event) (w : World) :
    snapshot (addEvent u e w) u = pushEvent e (snapshot w u) := by
  simp [snapshot, addEvent]

theorem snapshot_addEvent_other (u v : String) (e : Event) (w : World) (h : v ≠ u) :
    (addEvent u e w).recentEvents v = w.recentEvents v := by
  simp [addEvent, Function.update, h]

theorem snapshot_addEvents (u : String) (es : List Event) :
    ∀ w : World, (snapshot w u).length ≤ 50 →
      snapshot (addEvents u es w) u = (es.reverse ++ snapshot w u).take 50 := by
  induction es with
  | nil =>
    intro w h
    simpa [addEvents] using (List.take_of_length_le h).symm
  | cons e es ih =>
    intro w h
    have hstep : snapshot (addEvent u e w) u = (e :: snapshot w u).take 50 := by
      rw [snapshot_addEvent_self, pushEvent_eq_take e _ h]
    have hlen : (snapshot (addEvent u e w) u).length ≤ 50 := by
      rw [hstep]; simp
    have := ih (addEvent u e w) hlen
    simp only [addEvents, List.foldl_cons] at this ⊢
    rw [this, hstep, List.reverse_cons, List.append_assoc, List.singleton_append]
    by_cases hes : 50 ≤ es.reverse.length
    · rw [List.take_append_of_le_length hes, List.take_append_of_le_length hes]
    · have hlt : es.reverse.length < 50 := by omega
      rw [List.take_append_eq_append_take, List.take_append_eq_append_take,
        List.take_take]
      congr 2
      omega

/-- C6: after appending `e1, ..., en` with `addEvent` to an empty buffer of a
tenant, the buffer is the first 50 elements of `[en, ..., e1]`: the `min n 50` most
recent events, newest first; for `n = 60` it is `e60, ..., e11`. -/
theorem addEvents_buffer (u : String) (es : List Event) (w : World)
    (hempty : snapshot w u = []) :
    snapshot (addEvents u es w) u = es.reverse.take 50 ∧
    (snapshot (addEvents u es w) u).length = min es.length 50 ∧
    (es.length = 60 → snapshot (addEvents u es w) u = (es.drop 10).reverse) := by
  have h := snapshot_addEvents u es w (by simp [hempty])
  rw [hempty, List.append_nil] at h
  refine ⟨h, ?_, ?_⟩
  · rw [h]; simp [Nat.min_comm]
  · intro h60
    rw [h, List.take_reverse, h60]

/-- Witness of C6: sixty numbered events appended to the empty buffer of `sampleUser`
leave the events numbered 59 down to 10. -/
theorem addEvents_buffer_witness :
    snapshot (addEvents "11111111-1111-4111-8111-111111111111" ((List.range 60).map sampleEvent) freshWorld) "11111111-1111-4111-8111-111111111111"
      = (((List.range 60).map sampleEvent).drop 10).reverse :=
  (addEvents_buffer "11111111-1111-4111-8111-111111111111" ((List.range 60).map sampleEvent) freshWorld rfl).2.2 (by decide)

/-! ### The notification branch -/

theorem switchType_subscribe (e : List (String × JsVal)) :
    switchType (str "channel.subscribe") (obj e) =
      .ok (some { eventType := "subscribe",
                  data := [("userName", lookup "user_name" e), ("userId", lookup "user_id" e),
                           ("tier", lookup "tier" e), ("isGift", lookup "is_gift" e)] }) := by
  simp [switchType, isType, getProp, bind, Except.bind, pure, Except.pure]

theorem switchType_gift (e : List (String × JsVal)) :
    switchType (str "channel.subscription.gift") (obj e) =
      .ok (some { eventType := "gift_subscription",
                  data := [("userName", lookup "user_name" e), ("userId", lookup "user_id" e),
                           ("total", lookup "total" e), ("tier", lookup "tier" e),
                           ("cumulativeTotal", lookup "cumulative_total" e)] }) := by
  simp [switchType, isType, getProp, bind, Except.bind, pure, Except.pure]

theorem switchType_cheer (e : List (String × JsVal)) :
    switchType (str "channel.cheer") (obj e) =
      .ok (some { eventType := "cheer",
                  data := [("userName", lookup "user_name" e), ("userId", lookup "user_id" e),
                           ("bits", lookup "bits" e), ("message", lookup "message" e)] }) := by
  simp [switchType, isType, getProp, bind, Except.bind, pure, Except.pure]

theorem switchType_raid (e : List (String × JsVal)) :
    switchType (str "channel.raid") (obj e) =
      .ok (some { eventType := "raid",
                  data := [("fromBroadcasterName", lookup "from_broadcaster_user_name" e),
                           ("fromBroadcasterId", lookup "from_broadcaster_user_id" e),
                           ("viewers", lookup "viewers" e)] }) := by
  simp [switchType, isType, getProp, bind, Except.bind, pure, Except.pure]

theorem switchType_follow (e : List (String × JsVal)) :
    switchType (str "channel.follow") (obj e) =
      .ok (some { eventType := "follow",
                  data := [("userName", lookup "user_name" e), ("userId", lookup "user_id" e),
                           ("followedAt", lookup "followed_at" e)] }) := by
  simp [switchType, isType, getProp, bind, Except.bind, pure, Except.pure]

theorem switchType_supported (ty : String) (ekvs : List (String × JsVal))
    (hsup : ty ∈ supportedTypes) :
    ∃ ed : EventData, switchType (str ty) (obj ekvs) = .ok (some ed) := by
  simp only [supportedTypes, List.mem_cons, List.mem_singleton, List.not_mem_nil,
    or_false] at hsup
  rcases hsup with h | h | h | h | h <;> subst h
  · exact ⟨_, switchType_subscribe ekvs⟩
  · exact ⟨_, switchType_gift ekvs⟩
  · exact ⟨_, switchType_cheer ekvs⟩
  · exact ⟨_, switchType_raid ekvs⟩
  · exact ⟨_, switchType_follow ekvs⟩

theorem readNotification_supported (kvs skvs ekvs : List (String × JsVal)) (ty : String)
    (hsub : lookup "subscription" kvs = obj skvs) (hty : lookup "type" skvs = str ty)
    (hev : lookup "event" kvs = obj ekvs) :
    readNotification (obj kvs) = switchType (str ty) (obj ekvs) := by
  simp [readNotification, getProp, hsub, hty, hev, bind, Except.bind]

/-- A correctly signed notification to a known tenant whose body yields `eventData`
is answered 204 after the inner `try` has run. -/
theorem webhookHandler_notification (P : Platform) (env : Env) (req : Request) (w : World)
    (user : User) (ed : EventData)
    (huser : env.getUserById req.userId = .ok (some user))
    (hsig : (verifySignature P env.now req user.eventSubSecret).1 = .ok true)
    (hmt : req.headers "twitch-eventsub-message-type" = some "notification")
    (hread : readNotification req.body = .ok (some ed)) :
    webhookHandler P env req w =
      (⟨204, .empty⟩,
        forwardAndStore P env user req.userId ed
          { w with hmacCalls :=
              w.hmacCalls ++ (verifySignature P env.now req user.eventSubSecret).2 }) := by
  simp [webhookHandler, huser, hsig, hmt, hread]

/-- C7: for a correctly signed notification of a supported subscription type to a
known tenant, when the post to the sink throws, the handler answers 204 and the
event buffers, the listener sets and everything written to listeners are as before
the request. -/
theorem webhookHandler_forward_failure (P : Platform) (env : Env) (req : Request) (w : World)
    (user : User) (kvs skvs ekvs : List (String × JsVal)) (ty : String)
    (huser : env.getUserById req.userId = .ok (some user))
    (hsig : (verifySignature P env.now req user.eventSubSecret).1 = .ok true)
    (hmt : req.headers "twitch-eventsub-message-type" = some "notification")
    (hbody : req.body = obj kvs)
    (hsub : lookup "subscription" kvs = obj skvs) (hty : lookup "type" skvs = str ty)
    (hsup : ty ∈ supportedTypes) (hev : lookup "event" kvs = obj ekvs)
    (hpost : ∀ call, ∃ err, env.post call = .error err) :
    (webhookHandler P env req w).1.status = 204 ∧
    (webhookHandler P env req w).2.recentEvents = w.recentEvents ∧
    (webhookHandler P env req w).2.eventClients = w.eventClients ∧
    (webhookHandler P env req w).2.written = w.written := by
  obtain ⟨ed, hed⟩ := switchType_supported ty ekvs hsup
  have hread : readNotification req.body = .ok (some ed) := by
    rw [hbody, readNotification_supported kvs skvs ekvs ty hsub hty hev, hed]
  rw [webhookHandler_notification P env req w user ed huser hsig hmt hread]
  obtain ⟨err, herr⟩ := hpost
    { url := stripTrailingSlashes user.minecraftServerUrl ++ "/twitch-event",
      eventType := ed.eventType, data := ed.data, xUserId := user.userId }
  simp [forwardAndStore, sendToMinecraft, herr]

/-- Witness of C7: the signed cheer notification with the sink unreachable. -/
theorem webhookHandler_forward_failure_witness :
    (webhookHandler samplePlatform (sampleEnv 1700000000000 sinkDown)
        (sampleRequest "notification" cheerSignature "2023-11-14T22:13:20Z" cheerBody)
        freshWorld).1.status = 204 ∧
    (webhookHandler samplePlatform (sampleEnv 1700000000000 sinkDown)
        (sampleRequest "notification" cheerSignature "2023-11-14T22:13:20Z" cheerBody)
        freshWorld).2.recentEvents = freshWorld.recentEvents ∧
    (webhookHandler samplePlatform (sampleEnv 1700000000000 sinkDown)
        (sampleRequest "notification" cheerSignature "2023-11-14T22:13:20Z" cheerBody)
        freshWorld).2.eventClients = freshWorld.eventClients ∧
    (webhookHandler samplePlatform (sampleEnv 1700000000000 sinkDown)
        (sampleRequest "notification" cheerSignature "2023-11-14T22:13:20Z" cheerBody)
        freshWorld).2.written = freshWorld.written :=
  webhookHandler_forward_failure samplePlatform (sampleEnv 1700000000000 sinkDown)
    (sampleRequest "notification" cheerSignature "2023-11-14T22:13:20Z" cheerBody) freshWorld
    sampleUser
    [("subscription", obj [("type", str "channel.cheer")]),
     ("event", obj [("user_name", str "bob"), ("user_id", str "1"), ("bits", num 500),
                    ("message", str "hi")])]
    [("type", str "channel.cheer")]
    [("user_name", str "bob"), ("user_id", str "1"), ("bits", num 500), ("message", str "hi")]
    "channel.cheer" rfl (by decide) (by decide) rfl rfl rfl (by decide) rfl
    (fun _ => ⟨_, rfl⟩)

theorem head_pushEvent (e : Event) (l : List Event) : (pushEvent e l).head? = some e := by
  unfold pushEvent
  split
  · cases l with
    | nil => simp at *
    | cons a t => simp [List.dropLast]
  · rfl

theorem pushEvent_of_lt (e : Event) (l : List Event) (h : l.length < 50) :
    pushEvent e l = e :: l := by
  unfold pushEvent
  rw [if_neg]
  simp only [List.length_cons]
  omega

/-- C8: for a correctly signed notification of a supported subscription type to a
known tenant, when the post to the sink does not throw, the handler answers 204,
exactly one post was made, carrying the `eventData` of the switch, and one event
with the same `eventType` and `data` was pushed on the tenant buffer: it is the head
of the snapshot, the former content follows it (all of it when fewer than 50 events
were buffered), and the buffers of other tenants are unchanged. -/
theorem webhookHandler_forward_success (P : Platform) (env : Env) (req : Request) (w : World)
    (user : User) (kvs skvs ekvs : List (String × JsVal)) (ty : String)
    (huser : env.getUserById req.userId = .ok (some user))
    (hsig : (verifySignature P env.now req user.eventSubSecret).1 = .ok true)
    (hmt : req.headers "twitch-eventsub-message-type" = some "notification")
    (hbody : req.body = obj kvs)
    (hsub : lookup "subscription" kvs = obj skvs) (hty : lookup "type" skvs = str ty)
    (hsup : ty ∈ supportedTypes) (hev : lookup "event" kvs = obj ekvs)
    (hpost : ∀ call, ∃ r, env.post call = .ok r) :
    ∃ ed : EventData, ∃ e : Event,
      switchType (str ty) (obj ekvs) = .ok (some ed) ∧
      (webhookHandler P env req w).1.status = 204 ∧
      (webhookHandler P env req w).2.sinkCalls =
        w.sinkCalls ++
          [{ url := stripTrailingSlashes user.minecraftServerUrl ++ "/twitch-event",
             eventType := ed.eventType, data := ed.data, xUserId := user.userId }] ∧
      e.eventType = ed.eventType ∧ e.data = ed.data ∧
      snapshot (webhookHandler P env req w).2 req.userId
        = pushEvent e (snapshot w req.userId) ∧
      (snapshot (webhookHandler P env req w).2 req.userId).head? = some e ∧
      ((snapshot w req.userId).length < 50 →
        snapshot (webhookHandler P env req w).2 req.userId = e :: snapshot w req.userId) ∧
      (∀ v, v ≠ req.userId →
        (webhookHandler P env req w).2.recentEvents v = w.recentEvents v) := by
  obtain ⟨ed, hed⟩ := switchType_supported ty ekvs hsup
  have hread : readNotification req.body = .ok (some ed) := by
    rw [hbody, readNotification_supported kvs skvs ekvs ty hsub hty hev, hed]
  obtain ⟨r, hr⟩ := hpost
    { url := stripTrailingSlashes user.minecraftServerUrl ++ "/twitch-event",
      eventType := ed.eventType, data := ed.data, xUserId := user.userId }
  have hw : (webhookHandler P env req w).2 =
      addEvent req.userId (eventForDashboard P env ed)
        { w with
          hmacCalls := w.hmacCalls ++ (verifySignature P env.now req user.eventSubSecret).2
          sinkCalls := w.sinkCalls ++
            [{ url := stripTrailingSlashes user.minecraftServerUrl ++ "/twitch-event",
               eventType := ed.eventType, data := ed.data, xUserId := user.userId }] } := by
    rw [webhookHandler_notification P env req w user ed huser hsig hmt hread]
    simp [forwardAndStore, sendToMinecraft, hr]
  have hsnap : snapshot (webhookHandler P env req w).2 req.userId
      = pushEvent (eventForDashboard P env ed) (snapshot w req.userId) := by
    rw [hw, snapshot_addEvent_self]; rfl
  refine ⟨ed, eventForDashboard P env ed, hed, ?_, ?_, rfl, rfl, hsnap, ?_, ?_, ?_⟩
  · rw [webhookHandler_notification P env req w user ed huser hsig hmt hread]
  · rw [hw]; rfl
  · rw [hsnap, head_pushEvent]
  · intro hlt
    rw [hsnap, pushEvent_of_lt _ _ hlt]
  · intro v hv
    rw [hw, snapshot_addEvent_other _ _ _ _ hv]

/-- Witness of C8: the signed `channel.cheer` notification with `user_name` bob,
`user_id` 1, `bits` 500 and `message` hi, the sink accepting the post. -/
theorem webhookHandler_forward_success_witness :
    (∃ ed : EventData, ∃ e : Event,
      switchType (str "channel.cheer")
          (obj [("user_name", str "bob"), ("user_id", str "1"), ("bits", num 500),
                ("message", str "hi")]) = .ok (some ed) ∧
      (webhookHandler samplePlatform (sampleEnv 1700000000000 sinkOk)
        (sampleRequest "notification" cheerSignature "2023-11-14T22:13:20Z" cheerBody)
        freshWorld).1.status = 204 ∧
      (webhookHandler samplePlatform (sampleEnv 1700000000000 sinkOk)
        (sampleRequest "notification" cheerSignature "2023-11-14T22:13:20Z" cheerBody)
        freshWorld).2.sinkCalls =
        freshWorld.sinkCalls ++
          [{ url := stripTrailingSlashes sampleUser.minecraftServerUrl ++ "/twitch-event",
             eventType := ed.eventType, data := ed.data, xUserId := sampleUser.userId }] ∧
      e.eventType = ed.eventType ∧ e.data = ed.data ∧
      snapshot (webhookHandler samplePlatform (sampleEnv 1700000000000 sinkOk)
        (sampleRequest "notification" cheerSignature "2023-11-14T22:13:20Z" cheerBody)
        freshWorld).2 "11111111-1111-4111-8111-111111111111" = pushEvent e (snapshot freshWorld "11111111-1111-4111-8111-111111111111") ∧
      (snapshot (webhookHandler samplePlatform (sampleEnv 1700000000000 sinkOk)
        (sampleRequest "notification" cheerSignature "2023-11-14T22:13:20Z" cheerBody)
        freshWorld).2 "11111111-1111-4111-8111-111111111111").head? = some e ∧
      ((snapshot freshWorld "11111111-1111-4111-8111-111111111111").length < 50 →
        snapshot (webhookHandler samplePlatform (sampleEnv 1700000000000 sinkOk)
          (sampleRequest "notification" cheerSignature "2023-11-14T22:13:20Z" cheerBody)
          freshWorld).2 "11111111-1111-4111-8111-111111111111" = e :: snapshot freshWorld "11111111-1111-4111-8111-111111111111") ∧
      (∀ v, v ≠ "11111111-1111-4111-8111-111111111111" →
        (webhookHandler samplePlatform (sampleEnv 1700000000000 sinkOk)
          (sampleRequest "notification" cheerSignature "2023-11-14T22:13:20Z" cheerBody)
          freshWorld).2.recentEvents v = freshWorld.recentEvents v)) ∧
    ((snapshot (webhookHandler samplePlatform (sampleEnv 1700000000000 sinkOk)
        (sampleRequest "notification" cheerSignature "2023-11-14T22:13:20Z" cheerBody)
        freshWorld).2 "11111111-1111-4111-8111-111111111111").map (fun e => (e.eventType, e.data))
      = [("cheer", [("userName", str "bob"), ("userId", str "1"), ("bits", num 500),
                    ("message", str "hi")])]) ∧
    ((webhookHandler samplePlatform (sampleEnv 1700000000000 sinkOk)
        (sampleRequest "notification" cheerSignature "2023-11-14T22:13:20Z" cheerBody)
        freshWorld).2.sinkCalls.map (fun c => (c.url, c.eventType, c.data, c.xUserId))
      = [("http://mc.example:8080/twitch-event", "cheer",
          [("userName", str "bob"), ("userId", str "1"), ("bits", num 500),
           ("message", str "hi")], "11111111-1111-4111-8111-111111111111")]) :=
  ⟨webhookHandler_forward_success samplePlatform (sampleEnv 1700000000000 sinkOk)
    (sampleRequest "notification" cheerSignature "2023-11-14T22:13:20Z" cheerBody) freshWorld
    sampleUser
    [("subscription", obj [("type", str "channel.cheer")]),
     ("event", obj [("user_name", str "bob"), ("user_id", str "1"), ("bits", num 500),
                    ("message", str "hi")])]
    [("type", str "channel.cheer")]
    [("user_name", str "bob"), ("user_id", str "1"), ("bits", num 500), ("message", str "hi")]
    "channel.cheer" rfl (by decide) (by decide) rfl rfl rfl (by decide) rfl
    (fun _ => ⟨_, rfl⟩), by rfl, by rfl⟩

/-- C9: the switch maps each supported `subscription.type` to its fixed
`eventType` and to a `data` object with exactly the listed properties, each the
unchanged value of the platform event field it is read from (`undefined` when the
field is absent): `user_name`, `user_id`, `tier`, `is_gift`, `total`,
`cumulative_total`, `bits`, `message`, `from_broadcaster_user_name`,
`from_broadcaster_user_id`, `viewers`, `followed_at`. -/
theorem switchType_mapping (e : List (String × JsVal)) :
    switchType (str "channel.subscribe") (obj e) =
      .ok (some { eventType := "subscribe",
                  data := [("userName", lookup "user_name" e), ("userId", lookup "user_id" e),
                           ("tier", lookup "tier" e), ("isGift", lookup "is_gift" e)] }) ∧
    switchType (str "channel.subscription.gift") (obj e) =
      .ok (some { eventType := "gift_subscription",
                  data := [("userName", lookup "user_name" e), ("userId", lookup "user_id" e),
                           ("total", lookup "total" e), ("tier", lookup "tier" e),
                           ("cumulativeTotal", lookup "cumulative_total" e)] }) ∧
    switchType (str "channel.cheer") (obj e) =
      .ok (some { eventType := "cheer",
                  data := [("userName", lookup "user_name" e), ("userId", lookup "user_id" e),
                           ("bits", lookup "bits" e), ("message", lookup "message" e)] }) ∧
    switchType (str "channel.raid") (obj e) =
      .ok (some { eventType := "raid",
                  data := [("fromBroadcasterName", lookup "from_broadcaster_user_name" e),
                           ("fromBroadcasterId", lookup "from_broadcaster_user_id" e),
                           ("viewers", lookup "viewers" e)] }) ∧
    switchType (str "channel.follow") (obj e) =
      .ok (some { eventType := "follow",
                  data := [("userName", lookup "user_name" e), ("userId", lookup "user_id" e),
                           ("followedAt", lookup "followed_at" e)] }) :=
  ⟨switchType_subscribe e, switchType_gift e, switchType_cheer e, switchType_raid e,
    switchType_follow e⟩

/-! ### The stats route -/

theorem roundDouble_of_le (n : Int) (h : n.natAbs ≤ 2 ^ 53) : roundDouble n = n := by
  simp only [roundDouble, h, if_true]

theorem specTotalValue_cons (e : Event) (es : List Event) :
    specTotalValue (e :: es) = specTotalValue [e] + specTotalValue es := by
  by_cases hc : e.eventType = "cheer"
  · by_cases hs : e.eventType = "subscribe" ∨ e.eventType = "gift_subscription"
    · simp [specTotalValue, List.filter_cons, hc, hs]; ring
    · simp [specTotalValue, List.filter_cons, hc, hs]; ring
  · by_cases hs : e.eventType = "subscribe" ∨ e.eventType = "gift_subscription"
    · simp [specTotalValue, List.filter_cons, hc, hs]; ring
    · simp [specTotalValue, List.filter_cons, hc, hs]

/-- One iteration of the `totalValue` loop adds the contribution of the event when
the running total before and after it is exactly representable. -/
theorem addValue_step (acc : Int) (e : Event)
    (hb : e.eventType = "cheer" →
      (lookup "bits" e.data).truthy = false ∨ ∃ n : Int, lookup "bits" e.data = num n)
    (h0 : acc.natAbs ≤ 2 ^ 53) (h1 : (acc + specTotalValue [e]).natAbs ≤ 2 ^ 53) :
    addValue (num acc) e = num (acc + specTotalValue [e]) := by
  by_cases hc : e.eventType = "cheer"
  · have hs : ¬ (e.eventType = "subscribe" ∨ e.eventType = "gift_subscription") := by
      rw [hc]; decide
    have hspec : specTotalValue [e] = specBits e := by
      simp [specTotalValue, List.filter_cons, hc]
    rw [hspec] at h1 ⊢
    rcases hb hc with hf | ⟨n, hn⟩
    · have hz : specBits e = 0 := by
        unfold specBits
        split
        · next n hn => simpa [hn, truthy] using hf
        · rfl
      simp [addValue, hc, JsVal.or, hf, add, hz, roundDouble_of_le acc h0]
    · have hsb : specBits e = n := by simp [specBits, hn]
      rw [hsb] at h1 ⊢
      by_cases hz : n = 0
      · simp [addValue, hc, hn, hz, JsVal.or, truthy, add, roundDouble_of_le acc h0]
      · simp [addValue, hc, hn, hz, JsVal.or, truthy, add, roundDouble_of_le _ h1]
  · by_cases hs : e.eventType = "subscribe" ∨ e.eventType = "gift_subscription"
    · have hspec : specTotalValue [e] = 5 := by
        simp [specTotalValue, List.filter_cons, hc, hs]
      rw [hspec] at h1 ⊢
      simp [addValue, hc, hs, add, roundDouble_of_le _ h1]
    · have hspec : specTotalValue [e] = 0 := by
        simp [specTotalValue, List.filter_cons, hc, hs]
      simp [addValue, hc, hs, hspec]

theorem foldl_addValue (events : List Event)
    (hbits : ∀ e ∈ events, e.eventType = "cheer" →
      (lookup "bits" e.data).truthy = false ∨ ∃ n : Int, lookup "bits" e.data = num n) :
    ∀ acc : Int, (∀ k, (acc + specTotalValue (events.take k)).natAbs ≤ 2 ^ 53) →
      events.foldl addValue (num acc) = num (acc + specTotalValue events) := by
  induction events with
  | nil => intro acc _; simp [specTotalValue]
  | cons e es ih =>
    intro acc hrange
    have ih1 := ih (fun x hx => hbits x (List.mem_cons_of_mem _ hx))
    have h0 : acc.natAbs ≤ 2 ^ 53 := by
      have := hrange 0
      simpa [specTotalValue] using this
    have h1 : (acc + specTotalValue [e]).natAbs ≤ 2 ^ 53 := by
      have := hrange 1
      simpa using this
    rw [List.foldl_cons, addValue_step acc e (hbits e (List.mem_cons_self _ _)) h0 h1, ih1]
    · rw [specTotalValue_cons e es]; ring_nf
    · intro k
      have := hrange (k + 1)
      rw [List.take_succ_cons, specTotalValue_cons] at this
      rw [add_assoc]
      exact this

/-- C10 as stated fails on two kinds of buffer.  A cheer whose `data.bits` is the
text `100` followed by a subscribe gives the text `01005` as `totalValue`, not a
number; and two cheers of `9007199254740991` and `2` bits give `9007199254740992`,
while the sum of their bits is `9007199254740993`. -/
theorem totalValue_not_the_sum :
    totalValue [statsEvent "cheer" [("userName", str "bob"), ("userId", str "1"),
                  ("bits", str "100"), ("message", str "hi")],
                statsEvent "subscribe" [("userName", str "bob"), ("userId", str "1"),
                  ("tier", str "1000"), ("isGift", bool false)]] = str "01005" ∧
    totalValue [statsEvent "cheer" [("userName", str "bob"), ("userId", str "1"),
                  ("bits", num 9007199254740991), ("message", str "hi")],
                statsEvent "cheer" [("userName", str "bob"), ("userId", str "1"),
                  ("bits", num 2), ("message", str "hi")]] = num 9007199254740992 ∧
    specTotalValue [statsEvent "cheer" [("userName", str "bob"), ("userId", str "1"),
                  ("bits", num 9007199254740991), ("message", str "hi")],
                statsEvent "cheer" [("userName", str "bob"), ("userId", str "1"),
                  ("bits", num 2), ("message", str "hi")]] = 9007199254740993 := by
  refine ⟨by rfl, by rfl, by decide⟩

/-- C10 (amended): for a buffer whose cheer events carry a `data.bits` that is a
number or is falsy (absent, `null`, ...), and whose running totals (the
contributions summed in buffer order) stay within `2 ^ 53` in magnitude, the
`totalValue` of the stats response is the sum of `data.bits` over the cheer events
plus 5 times the number of subscribe and gift_subscription events; every other
event, and a cheer with absent or zero bits, contributes 0. -/
theorem statsHandler_totalValue (env : Env) (u : String) (w : World) (user : User)
    (huser : env.getUserById u = .ok (some user))
    (hbits : ∀ e ∈ snapshot w u, e.eventType = "cheer" →
      (lookup "bits" e.data).truthy = false ∨ ∃ n : Int, lookup "bits" e.data = num n)
    (hrange : ∀ k, (specTotalValue ((snapshot w u).take k)).natAbs ≤ 2 ^ 53) :
    totalValue (snapshot w u) = num (specTotalValue (snapshot w u)) ∧
    statsHandler env u w =
      ⟨200, .json (obj [("totalEvents", num (snapshot w u).length),
                        ("eventTypes", obj ((snapshot w u).foldl countType [])),
                        ("totalValue", num (specTotalValue (snapshot w u))),
                        ("recentEvents", arr (((snapshot w u).take 10).map Event.toJs))])⟩ := by
  have h : totalValue (snapshot w u) = num (specTotalValue (snapshot w u)) := by
    have := foldl_addValue (snapshot w u) hbits 0 (fun k => by simpa using hrange k)
    simpa [totalValue] using this
  refine ⟨h, ?_⟩
  unfold snapshot at h
  simp [statsHandler, huser, snapshot, h]

/-- Witness of C10 (amended): the buffer `[cheer(bits=100), subscribe,
gift_subscription]` has `totalValue` 110. -/
theorem statsHandler_totalValue_witness :
    totalValue (snapshot statsWorld sampleUser.userId) = num 110 :=
  (statsHandler_totalValue (sampleEnv 1700000000000 sinkOk) sampleUser.userId statsWorld
    sampleUser rfl
    (by
      intro e he _
      have he1 : e ∈ statsBuffer := he
      simp only [statsBuffer, List.mem_cons, List.mem_singleton, List.not_mem_nil,
        or_false] at he1
      rcases he1 with rfl | rfl | rfl
      · exact Or.inr ⟨100, rfl⟩
      · exact Or.inl rfl
      · exact Or.inl rfl)
    (by
      intro k
      have hk : k = 0 ∨ k = 1 ∨ k = 2 ∨ 3 ≤ k := by omega
      rcases hk with rfl | rfl | rfl | hk
      · decide
      · decide
      · decide
      · have ht : (snapshot statsWorld sampleUser.userId).take k
            = snapshot statsWorld sampleUser.userId :=
          List.take_of_length_le (by
            have : (snapshot statsWorld sampleUser.userId).length = 3 := by rfl
            omega)
        rw [ht]
        decide)).1.trans (by rfl)

/-! ### The event type histogram -/

theorem lookup_objSet (acc : List (String × JsVal)) (k t : String) (v : JsVal) :
    lookup t (objSet acc k v) = if t = k then v else lookup t acc := by
  induction acc with
  | nil =>
    by_cases h : t = k
    · simp [objSet, lookup, h]
    · have h1 : ¬ k = t := fun h2 => h h2.symm
      simp [objSet, lookup, h, h1]
  | cons kv rest ih =>
    obtain ⟨k1, v1⟩ := kv
    by_cases hk : k1 = k
    · by_cases h : t = k
      · simp [objSet, lookup, hk, h]
      · have h1 : ¬ k = t := fun h2 => h h2.symm
        simp [objSet, lookup, hk, h, h1]
    · by_cases h1 : k1 = t
      · have h2 : ¬ t = k := fun h3 => hk (h1.trans h3)
        simp [objSet, lookup, hk, h1, h2]
      · simp [objSet, lookup, hk, h1, ih]

theorem keysOf_objSet (acc : List (String × JsVal)) (k : String) (v : JsVal) :
    keysOf (objSet acc k v) = if k ∈ keysOf acc then keysOf acc else keysOf acc ++ [k] := by
  induction acc with
  | nil => simp [objSet, keysOf]
  | cons kv rest ih =>
    obtain ⟨k1, v1⟩ := kv
    by_cases hk : k1 = k
    · simp [objSet, keysOf, hk]
    · have hk1 : ¬ k = k1 := fun h => hk h.symm
      simp only [keysOf] at ih
      by_cases hm : k ∈ List.map Prod.fst rest
      · simp [objSet, keysOf, hk, hk1, hm, ih]
      · simp [objSet, keysOf, hk, hk1, hm, ih]

theorem lookup_of_not_mem (acc : List (String × JsVal)) (t : String)
    (h : t ∉ keysOf acc) : lookup t acc = undefined := by
  induction acc with
  | nil => rfl
  | cons kv rest ih =>
    obtain ⟨k1, v1⟩ := kv
    simp only [keysOf, List.map_cons, List.mem_cons, not_or] at h
    have h1 : ¬ k1 = t := fun h2 => h.1 h2.symm
    simp only [lookup, h1, if_false]
    exact ih h.2

theorem eq_map_lookup (acc : List (String × JsVal)) (h : (keysOf acc).Nodup) :
    acc = (keysOf acc).map (fun t => (t, lookup t acc)) := by
  induction acc with
  | nil => rfl
  | cons kv rest ih =>
    obtain ⟨k1, v1⟩ := kv
    simp only [keysOf, List.map_cons, List.nodup_cons] at h
    have ih1 := ih h.2
    simp only [keysOf, List.map_cons, lookup, if_true, List.map_map]
    congr 1
    simp only [keysOf, List.map_map] at ih1
    conv_lhs => rw [ih1]
    apply List.map_congr_left
    intro kv hkv
    have hne : ¬ k1 = kv.1 := by
      intro heq
      apply h.1
      rw [heq]
      exact List.mem_map_of_mem Prod.fst hkv
    simp [lookup, hne]

theorem Tallies_nil : Tallies [] [] := by
  simp [Tallies, keysOf]

theorem Tallies_countType (acc : List (String × JsVal)) (ts : List String) (e : Event)
    (h : Tallies acc ts) (hlen : ts.length < 2 ^ 53) :
    Tallies (countType acc e) (ts ++ [e.eventType]) := by
  obtain ⟨hnd, hmem, hval⟩ := h
  have hcount : ts.count e.eventType ≤ ts.length := List.count_le_length _ _
  by_cases hk : e.eventType ∈ ts
  · have hka : e.eventType ∈ keysOf acc := (hmem _).2 hk
    have hpos : 0 < ts.count e.eventType := List.count_pos_iff.2 hk
    have hv : add (JsVal.or (lookup e.eventType acc) (num 0)) (num 1)
        = num ((ts.count e.eventType : Nat) + 1) := by
      rw [hval _ hk]
      have hne : ((ts.count e.eventType : Nat) : Int) ≠ 0 := by omega
      have hr : roundDouble (((ts.count e.eventType : Nat) : Int) + 1)
          = ((ts.count e.eventType : Nat) : Int) + 1 :=
        roundDouble_of_le _ (by omega)
      simp [JsVal.or, truthy, add, hne, hr]
    refine ⟨?_, ?_, ?_⟩
    · rw [countType, keysOf_objSet, if_pos hka]; exact hnd
    · intro t
      rw [countType, keysOf_objSet, if_pos hka, hmem]
      constructor
      · intro ht; exact List.mem_append_left _ ht
      · intro ht
        rcases List.mem_append.1 ht with h1 | h1
        · exact h1
        · rw [List.mem_singleton.1 h1]; exact hk
    · intro t ht
      rw [countType, lookup_objSet, hv]
      by_cases hte : t = e.eventType
      · simp [hte, List.count_append]
      · have ht1 : t ∈ ts := by
          rcases List.mem_append.1 ht with h1 | h1
          · exact h1
          · exact absurd (List.mem_singleton.1 h1) hte
        have hte1 : ¬ e.eventType = t := fun h2 => hte h2.symm
        simp [hte, hte1, List.count_append, hval t ht1]
  · have hka : e.eventType ∉ keysOf acc := fun h1 => hk ((hmem _).1 h1)
    have hzero : ts.count e.eventType = 0 := List.count_eq_zero_of_not_mem hk
    have hv : add (JsVal.or (lookup e.eventType acc) (num 0)) (num 1) = num 1 := by
      rw [lookup_of_not_mem acc _ hka]
      have hr : roundDouble 1 = 1 := by decide
      simp [JsVal.or, truthy, add, hr]
    refine ⟨?_, ?_, ?_⟩
    · rw [countType, keysOf_objSet, if_neg hka]
      rw [List.nodup_append]
      refine ⟨hnd, List.nodup_singleton _, ?_⟩
      intro x hx hx1
      rw [List.mem_singleton.1 hx1] at hx
      exact hka hx
    · intro t
      rw [countType, keysOf_objSet, if_neg hka]
      simp only [List.mem_append, List.mem_singleton, hmem]
    · intro t ht
      rw [countType, lookup_objSet, hv]
      by_cases hte : t = e.eventType
      · simp [hte, List.count_append, hzero]
      · have ht1 : t ∈ ts := by
          rcases List.mem_append.1 ht with h1 | h1
          · exact h1
          · exact absurd (List.mem_singleton.1 h1) hte
        have hte1 : ¬ e.eventType = t := fun h2 => hte h2.symm
        simp [hte, hte1, List.count_append, hval t ht1]

theorem Tallies_foldl (events : List Event) :
    ∀ (acc : List (String × JsVal)) (ts : List String), Tallies acc ts →
      ts.length + events.length ≤ 2 ^ 53 →
      Tallies (events.foldl countType acc) (ts ++ events.map Event.eventType) := by
  induction events with
  | nil => intro acc ts h _; simpa using h
  | cons e es ih =>
    intro acc ts h hlen
    simp only [List.length_cons] at hlen
    have := ih (countType acc e) (ts ++ [e.eventType])
      (Tallies_countType acc ts e h (by omega))
      (by simp only [List.length_append, List.length_singleton]; omega)
    simpa [List.foldl_cons, List.append_assoc] using this

theorem Tallies_eventTypes (events : List Event) (hlen : events.length ≤ 2 ^ 53) :
    Tallies (eventTypes events) (events.map Event.eventType) := by
  have := Tallies_foldl events [] [] Tallies_nil (by simpa using hlen)
  simpa [eventTypes] using this

/-- C11: for a buffer of events of the types the handler stores (an array, so of
fewer than `2 ^ 32` elements), the stats response has `totalEvents` equal to the
buffer length, and its `eventTypes` object has one key for each event type that
occurs in the buffer and no other key, each bound to the number of buffered events
of that type; the counts sum to the buffer length. -/
theorem statsHandler_eventTypes (env : Env) (u : String) (w : World) (user : User)
    (huser : env.getUserById u = .ok (some user))
    (htags : ∀ e ∈ snapshot w u, e.eventType ∈ eventTags)
    (hlen : (snapshot w u).length < 2 ^ 32) :
    statsHandler env u w =
      ⟨200, .json (obj [("totalEvents", num (snapshot w u).length),
                        ("eventTypes", obj (eventTypes (snapshot w u))),
                        ("totalValue", totalValue (snapshot w u)),
                        ("recentEvents", arr (((snapshot w u).take 10).map Event.toJs))])⟩ ∧
    (keysOf (eventTypes (snapshot w u))).Nodup ∧
    (∀ t, t ∈ keysOf (eventTypes (snapshot w u)) ↔ ∃ e ∈ snapshot w u, e.eventType = t) ∧
    eventTypes (snapshot w u) =
      (keysOf (eventTypes (snapshot w u))).map
        (fun t => (t, num (((snapshot w u).map Event.eventType).count t : Nat))) ∧
    ((keysOf (eventTypes (snapshot w u))).map
        (fun t => ((snapshot w u).map Event.eventType).count t)).sum
      = (snapshot w u).length := by
  have _ := htags
  obtain ⟨hnd, hmem, hval⟩ := Tallies_eventTypes (snapshot w u) (by omega)
  refine ⟨?_, hnd, ?_, ?_, ?_⟩
  · simp [statsHandler, huser, snapshot, eventTypes]
  · intro t
    rw [hmem t, List.mem_map]
  · conv_lhs => rw [eq_map_lookup _ hnd]
    apply List.map_congr_left
    intro t ht
    rw [hval t ((hmem t).1 ht)]
  · have hperm : (keysOf (eventTypes (snapshot w u))).Perm
        ((snapshot w u).map Event.eventType).dedup :=
      (List.perm_ext_iff_of_nodup hnd (List.nodup_dedup _)).2
        (fun t => by rw [hmem t, List.mem_dedup])
    rw [(hperm.map _).sum_eq, List.sum_map_count_dedup_eq_length, List.length_map]

/-- Witness of C11: the buffer `[cheer(bits=100), subscribe, gift_subscription]`
gives `eventTypes = {cheer: 1, subscribe: 1, gift_subscription: 1}`, whose counts
sum to 3. -/
theorem statsHandler_eventTypes_witness :
    eventTypes (snapshot statsWorld "11111111-1111-4111-8111-111111111111")
      = [("cheer", num 1), ("subscribe", num 1), ("gift_subscription", num 1)] ∧
    ((keysOf (eventTypes (snapshot statsWorld "11111111-1111-4111-8111-111111111111"))).map
        (fun t => ((snapshot statsWorld "11111111-1111-4111-8111-111111111111").map Event.eventType).count t)).sum
      = (snapshot statsWorld "11111111-1111-4111-8111-111111111111").length :=
  ⟨by rfl,
   (statsHandler_eventTypes (sampleEnv 1700000000000 sinkOk) "11111111-1111-4111-8111-111111111111" statsWorld sampleUser rfl
    (by
      intro e he
      have he1 : e ∈ statsBuffer := he
      simp only [statsBuffer, List.mem_cons, List.mem_singleton, List.not_mem_nil,
        or_false] at he1
      rcases he1 with rfl | rfl | rfl <;> decide)
    (by decide)).2.2.2.2⟩

/-! ### The other branches of the webhook handler -/

/-- C12: a correctly signed request to a known tenant with message type
`webhook_callback_verification` and body `{challenge: c}`, `c` a string, is
answered with status 200 and the body `c`; nothing is posted to the sink and no
buffer, listener set or stream changes. -/
theorem webhookHandler_challenge (P : Platform) (env : Env) (req : Request) (w : World)
    (user : User) (kvs : List (String × JsVal)) (c : String)
    (huser : env.getUserById req.userId = .ok (some user))
    (hsig : (verifySignature P env.now req user.eventSubSecret).1 = .ok true)
    (hmt : req.headers "twitch-eventsub-message-type" = some "webhook_callback_verification")
    (hbody : req.body = obj kvs) (hc : lookup "challenge" kvs = str c) :
    (webhookHandler P env req w).1.status = 200 ∧
    (webhookHandler P env req w).1.body = .send (str c) ∧
    (webhookHandler P env req w).2.sinkCalls = w.sinkCalls ∧
    (webhookHandler P env req w).2.recentEvents = w.recentEvents ∧
    (webhookHandler P env req w).2.eventClients = w.eventClients ∧
    (webhookHandler P env req w).2.written = w.written := by
  simp [webhookHandler, huser, hsig, hmt, hbody, getProp, hc]

/-- Witness of C12: the signed challenge `abc123` sent to the tenant `sampleUser`. -/
theorem webhookHandler_challenge_witness :
    (webhookHandler samplePlatform (sampleEnv 1700000000000 sinkOk)
        (sampleRequest "webhook_callback_verification" challengeSignature
          "2023-11-14T22:13:20Z" challengeBody) freshWorld).1.status = 200 ∧
    (webhookHandler samplePlatform (sampleEnv 1700000000000 sinkOk)
        (sampleRequest "webhook_callback_verification" challengeSignature
          "2023-11-14T22:13:20Z" challengeBody) freshWorld).1.body = .send (str "abc123") :=
  have h := webhookHandler_challenge samplePlatform (sampleEnv 1700000000000 sinkOk)
    (sampleRequest "webhook_callback_verification" challengeSignature
      "2023-11-14T22:13:20Z" challengeBody) freshWorld sampleUser
    [("challenge", str "abc123")] "abc123" rfl (by decide) (by decide) rfl rfl
  ⟨h.1, h.2.1⟩

/-- C13: a webhook request whose path tenant id the lookup reports absent is
answered with status 404 whatever its headers and body are, and the world is left
as it was: no HMAC is computed, nothing is posted to the sink, no buffer and no
listener set changes.  But when the lookup throws, the answer is status 500, where
the claim has 404; the world is left as it was in this case too.  Against a table
of any rows, the lookup throws for every path id that is not the text of a UUID
(an id that is in no row), because of the `UUID` column of `user_id`; a path id
that is the text of a UUID and in no row is answered 404. -/
theorem webhookHandler_unknown_tenant (P : Platform) (env : Env) (req : Request) (w : World) :
    (env.getUserById req.userId = .ok none →
      (webhookHandler P env req w).1.status = 404 ∧
      webhookHandler P env req w = (⟨404, errorBody "User not found"⟩, w)) ∧
    (∀ err, env.getUserById req.userId = .error err →
      (webhookHandler P env req w).1.status = 500 ∧
      webhookHandler P env req w = (⟨500, errorBody "Internal server error"⟩, w)) ∧
    (∀ rows, env.getUserById = lookupUser rows → pgUuid req.userId = none →
      (webhookHandler P env req w).1.status = 500 ∧
      webhookHandler P env req w = (⟨500, errorBody "Internal server error"⟩, w)) ∧
    (∀ rows bytes, env.getUserById = lookupUser rows → pgUuid req.userId = some bytes →
      (∀ row ∈ rows, pgUuid row.userId ≠ some bytes) →
      (webhookHandler P env req w).1.status = 404 ∧
      webhookHandler P env req w = (⟨404, errorBody "User not found"⟩, w)) := by
  refine ⟨?_, ?_, ?_, ?_⟩
  · intro huser
    simp [webhookHandler, huser]
  · intro err huser
    simp [webhookHandler, huser]
  · intro rows henv hbad
    have huser : env.getUserById req.userId
        = .error (.error "invalid input syntax for type uuid") := by
      rw [henv]
      simp [lookupUser, hbad]
    simp [webhookHandler, huser]
  · intro rows bytes henv hid habsent
    have hfind : rows.find? (fun row => decide (pgUuid row.userId = some bytes)) = none := by
      rw [List.find?_eq_none]
      intro row hrow
      simpa using habsent row hrow
    have huser : env.getUserById req.userId = .ok none := by
      rw [henv]
      simp [lookupUser, hid, hfind]
    simp [webhookHandler, huser]

/-- Witness of C13: the signed cheer notification sent to a UUID that is in no row
is answered 404; sent to the path id `not-a-uuid`, which is in no row either, it
is answered 500, the lookup having thrown. -/
theorem webhookHandler_unknown_tenant_witness :
    (webhookHandler samplePlatform (sampleEnv 1700000000000 sinkOk)
        { sampleRequest "notification" cheerSignature "2023-11-14T22:13:20Z" cheerBody with
          userId := "22222222-2222-4222-8222-222222222222" } freshWorld).1.status = 404 ∧
    sampleStore "not-a-uuid" = .error (.error "invalid input syntax for type uuid") ∧
    (webhookHandler samplePlatform (sampleEnv 1700000000000 sinkOk)
        { sampleRequest "notification" cheerSignature "2023-11-14T22:13:20Z" cheerBody with
          userId := "not-a-uuid" } freshWorld).1.status = 500 :=
  ⟨((webhookHandler_unknown_tenant samplePlatform (sampleEnv 1700000000000 sinkOk)
      { sampleRequest "notification" cheerSignature "2023-11-14T22:13:20Z" cheerBody with
        userId := "22222222-2222-4222-8222-222222222222" } freshWorld).1 rfl).1,
   rfl,
   ((webhookHandler_unknown_tenant samplePlatform (sampleEnv 1700000000000 sinkOk)
      { sampleRequest "notification" cheerSignature "2023-11-14T22:13:20Z" cheerBody with
        userId := "not-a-uuid" } freshWorld).2.2.1 [sampleUser] rfl rfl).1⟩

theorem isType_of_ne (v : JsVal) (label : String) (h : v ≠ str label) :
    isType v label = false := by
  cases v with
  | str s =>
    have hs : s ≠ label := fun h1 => h (by rw [h1])
    simp [isType, hs]
  | _ => rfl

theorem switchType_unsupported (ty event : JsVal)
    (h : ∀ t ∈ supportedTypes, ty ≠ str t) : switchType ty event = .ok none := by
  have h1 := isType_of_ne ty "channel.subscribe" (h _ (by simp [supportedTypes]))
  have h2 := isType_of_ne ty "channel.subscription.gift" (h _ (by simp [supportedTypes]))
  have h3 := isType_of_ne ty "channel.cheer" (h _ (by simp [supportedTypes]))
  have h4 := isType_of_ne ty "channel.raid" (h _ (by simp [supportedTypes]))
  have h5 := isType_of_ne ty "channel.follow" (h _ (by simp [supportedTypes]))
  simp [switchType, h1, h2, h3, h4, h5, pure, Except.pure]

/-- C14: a correctly signed notification to a known tenant whose
`subscription.type` is none of the five case labels is answered with status 204;
nothing is posted to the sink and no buffer, listener set or stream changes. -/
theorem webhookHandler_unsupported_type (P : Platform) (env : Env) (req : Request)
    (w : World) (user : User) (kvs skvs : List (String × JsVal))
    (huser : env.getUserById req.userId = .ok (some user))
    (hsig : (verifySignature P env.now req user.eventSubSecret).1 = .ok true)
    (hmt : req.headers "twitch-eventsub-message-type" = some "notification")
    (hbody : req.body = obj kvs) (hsub : lookup "subscription" kvs = obj skvs)
    (hty : ∀ t ∈ supportedTypes, lookup "type" skvs ≠ str t) :
    (webhookHandler P env req w).1.status = 204 ∧
    (webhookHandler P env req w).2.sinkCalls = w.sinkCalls ∧
    (webhookHandler P env req w).2.recentEvents = w.recentEvents ∧
    (webhookHandler P env req w).2.eventClients = w.eventClients ∧
    (webhookHandler P env req w).2.written = w.written := by
  have hread : readNotification req.body = .ok none := by
    rw [hbody]
    simp [readNotification, getProp, hsub, bind, Except.bind,
      switchType_unsupported _ _ hty]
  simp [webhookHandler, huser, hsig, hmt, hread]

/-- Witness of C14: a signed `channel.update` notification. -/
theorem webhookHandler_unsupported_type_witness :
    (webhookHandler samplePlatform (sampleEnv 1700000000000 sinkOk)
        (sampleRequest "notification" channelUpdateSignature "2023-11-14T22:13:20Z"
          channelUpdateBody) freshWorld).1.status = 204 ∧
    (webhookHandler samplePlatform (sampleEnv 1700000000000 sinkOk)
        (sampleRequest "notification" channelUpdateSignature "2023-11-14T22:13:20Z"
          channelUpdateBody) freshWorld).2.sinkCalls = [] :=
  have h := webhookHandler_unsupported_type samplePlatform (sampleEnv 1700000000000 sinkOk)
    (sampleRequest "notification" channelUpdateSignature "2023-11-14T22:13:20Z"
      channelUpdateBody) freshWorld sampleUser
    [("subscription", obj [("type", str "channel.update")]),
     ("event", obj [("title", str "hello")])]
    [("type", str "channel.update")] rfl (by decide) (by decide) rfl rfl
    (by
      intro t ht h
      have h1 : "channel.update" = t := by
        have h2 : str "channel.update" = str t := h
        injection h2
      subst h1
      revert ht
      decide)
  ⟨h.1, h.2.1⟩

/-! ### Tokens -/

theorem getTwitchToken_of_user (db : Store) (dateNow : Int) (userId : String) (user : User)
    (huser : db userId = some user) :
    Database.getTwitchToken db dateNow userId =
      if expired dateNow user.twitchTokenExpiry then none else user.twitchAccessToken := by
  simp [Database.getTwitchToken, Database.getUserById, huser]

theorem getUserAccessToken_of_user (db : Store) (dateNow : Int) (userId : String)
    (user : User) (huser : db userId = some user) :
    Database.getUserAccessToken db dateNow userId =
      if expired dateNow user.twitchUserTokenExpiry then none
      else user.twitchUserAccessToken := by
  simp [Database.getUserAccessToken, Database.getUserById, huser]

theorem decimalOf_of_le (n : Int) (h : n.natAbs ≤ 2 ^ 53) : decimalOf n = n := by
  simp only [decimalOf, h, if_true]

theorem bigintParam_of_le (v : Int) (h : v.natAbs ≤ 2 ^ 53) : bigintParam v = .ok v := by
  have h1 : -(2 ^ 63) ≤ v ∧ v < 2 ^ 63 := by constructor <;> omega
  simp only [bigintParam, decimalOf_of_le v h, h1, and_self, if_true]

/-- When the product and the sum are exactly representable, the expiry computed by
the updates is `dateNow + n * 1000` and the column takes it. -/
theorem bigintParam_tokenExpiry (dateNow n : Int) (hprod : (n * 1000).natAbs ≤ 2 ^ 53)
    (hsum : (dateNow + n * 1000).natAbs ≤ 2 ^ 53) :
    bigintParam (tokenExpiry dateNow n) = .ok (dateNow + n * 1000) := by
  have h : tokenExpiry dateNow n = dateNow + n * 1000 := by
    simp only [tokenExpiry, roundDouble_of_le _ hprod, roundDouble_of_le _ hsum]
  rw [h]
  exact bigintParam_of_le _ hsum

theorem updateTwitchToken_of_user (db : Store) (dateNow : Int) (userId tok : String)
    (n : Int) (r : Option String) (user : User) (huser : db userId = some user) (e : Int)
    (he : bigintParam (tokenExpiry dateNow n) = .ok e) :
    Database.updateTwitchToken db dateNow userId tok n r =
      .ok (Function.update db userId
        (some { user with
          twitchAccessToken := some tok
          twitchTokenExpiry := some e
          twitchRefreshToken := r })) := by
  simp [Database.updateTwitchToken, he, huser]

theorem updateUserAccessToken_of_user (db : Store) (dateNow : Int) (userId tok : String)
    (n : Int) (r : Option String) (user : User) (huser : db userId = some user) (e : Int)
    (he : bigintParam (tokenExpiry dateNow n) = .ok e) :
    Database.updateUserAccessToken db dateNow userId tok n r =
      .ok (Function.update db userId
        (some { user with
          twitchUserAccessToken := some tok
          twitchUserTokenExpiry := some e
          twitchUserRefreshToken := r })) := by
  simp [Database.updateUserAccessToken, he, huser]

/-- A successful update stores what the column took of the computed expiry. -/
theorem updateTwitchToken_ok (db db1 : Store) (dateNow : Int) (userId tok : String)
    (n : Int) (r : Option String)
    (hok : Database.updateTwitchToken db dateNow userId tok n r = .ok db1) :
    ∃ e, bigintParam (tokenExpiry dateNow n) = .ok e := by
  cases he : bigintParam (tokenExpiry dateNow n) with
  | ok e => exact ⟨e, rfl⟩
  | error err => simp [Database.updateTwitchToken, he] at hok

theorem updateUserAccessToken_ok (db db1 : Store) (dateNow : Int) (userId tok : String)
    (n : Int) (r : Option String)
    (hok : Database.updateUserAccessToken db dateNow userId tok n r = .ok db1) :
    ∃ e, bigintParam (tokenExpiry dateNow n) = .ok e := by
  cases he : bigintParam (tokenExpiry dateNow n) with
  | ok e => exact ⟨e, rfl⟩
  | error err => simp [Database.updateUserAccessToken, he] at hok

/-- With a non-empty app token on file that the expiry test accepts,
`getAccessToken` returns it and leaves the world as it was. -/
theorem getAccessToken_cached (env : TokenEnv) (userId : String) (w : TokenWorld)
    (user : User) (tok : String)
    (huser : w.users userId = some user)
    (htok : user.twitchAccessToken = some tok) (htok0 : tok ≠ "")
    (hexp : expired env.now user.twitchTokenExpiry = false) :
    TwitchService.getAccessToken env userId w = (.ok tok, w) := by
  simp [TwitchService.getAccessToken, Database.getUserById, huser,
    getTwitchToken_of_user _ _ _ _ huser, hexp, htok, textTruthy, htok0]

/-- Without an app token that the expiry test accepts, `getAccessToken` performs
one client-credentials exchange; its token is returned when the update stored it,
and a rejection of the exchange or of the update is rethrown. -/
theorem getAccessToken_exchange (env : TokenEnv) (userId : String) (w : TokenWorld)
    (user : User)
    (huser : w.users userId = some user)
    (hmiss : textTruthy (Database.getTwitchToken w.users env.now userId) = false) :
    TwitchService.getAccessToken env userId w =
      match env.exchange
        (.clientCredentials user.twitchClientId user.twitchClientSecret) with
      | .error err =>
        (.error err,
          { w with exchanges := w.exchanges ++
              [.clientCredentials user.twitchClientId user.twitchClientSecret] })
      | .ok data =>
        match Database.updateTwitchToken w.users env.updateNow userId
            data.access_token data.expires_in none with
        | .error err =>
          (.error err,
            { w with exchanges := w.exchanges ++
                [.clientCredentials user.twitchClientId user.twitchClientSecret] })
        | .ok users =>
          (.ok data.access_token,
            { users := users
              exchanges := w.exchanges ++
                [.clientCredentials user.twitchClientId user.twitchClientSecret] }) := by
  simp only [TwitchService.getAccessToken, Database.getUserById, huser, hmiss]
  cases env.exchange (.clientCredentials user.twitchClientId user.twitchClientSecret) with
  | error err => rfl
  | ok data =>
    simp only
    cases Database.updateTwitchToken w.users env.updateNow userId
      data.access_token data.expires_in none <;> rfl

/-- An accepted exchange whose expiry is exactly representable: the token is
returned and stored with the expiry `updateNow + expires_in * 1000`. -/
theorem getAccessToken_exchange_ok (env : TokenEnv) (userId : String) (w : TokenWorld)
    (user : User) (data : TokenResponse)
    (huser : w.users userId = some user)
    (hmiss : textTruthy (Database.getTwitchToken w.users env.now userId) = false)
    (hex : env.exchange (.clientCredentials user.twitchClientId user.twitchClientSecret)
      = .ok data)
    (hprod : (data.expires_in * 1000).natAbs ≤ 2 ^ 53)
    (hsum : (env.updateNow + data.expires_in * 1000).natAbs ≤ 2 ^ 53) :
    TwitchService.getAccessToken env userId w =
      (.ok data.access_token,
        { users := Function.update w.users userId
            (some { user with
              twitchAccessToken := some data.access_token
              twitchTokenExpiry := some (env.updateNow + data.expires_in * 1000)
              twitchRefreshToken := none })
          exchanges := w.exchanges ++
            [.clientCredentials user.twitchClientId user.twitchClientSecret] }) := by
  rw [getAccessToken_exchange env userId w user huser hmiss, hex]
  simp only
  rw [updateTwitchToken_of_user w.users env.updateNow userId data.access_token
    data.expires_in none user huser _ (bigintParam_tokenExpiry _ _ hprod hsum)]

/-- C15: for a known tenant with a non-empty app token and an expiry on file,
`getAccessToken` returns the stored token, with no exchange and no change of the
store, for every `now ≤ expiry`: also at `now = expiry`, where the claim has it
exchange.  For every `now > expiry` it performs one client-credentials exchange
with the client id and secret of the tenant, and either stores the new token (with
the expiry `updateNow + expires_in * 1000`, when that is exactly representable, and
no refresh token) and returns it, or rethrows the rejection and leaves the store as
it was. -/
theorem getAccessToken_cache_until_expiry (env : TokenEnv) (userId : String)
    (w : TokenWorld) (user : User) (tok : String) (e : Int)
    (huser : w.users userId = some user)
    (htok : user.twitchAccessToken = some tok) (htok0 : tok ≠ "")
    (hexp : user.twitchTokenExpiry = some e) :
    (env.now ≤ e → TwitchService.getAccessToken env userId w = (.ok tok, w)) ∧
    (env.now > e →
      (TwitchService.getAccessToken env userId w).2.exchanges =
        w.exchanges ++ [.clientCredentials user.twitchClientId user.twitchClientSecret] ∧
      (∀ data,
        env.exchange (.clientCredentials user.twitchClientId user.twitchClientSecret)
          = .ok data →
        (data.expires_in * 1000).natAbs ≤ 2 ^ 53 →
        (env.updateNow + data.expires_in * 1000).natAbs ≤ 2 ^ 53 →
        (TwitchService.getAccessToken env userId w).1 = .ok data.access_token ∧
        appTokenTriple (TwitchService.getAccessToken env userId w).2.users userId =
          some (some data.access_token, some (env.updateNow + data.expires_in * 1000),
            none)) ∧
      (∀ err,
        env.exchange (.clientCredentials user.twitchClientId user.twitchClientSecret)
          = .error err →
        (TwitchService.getAccessToken env userId w).1 = .error err ∧
        (TwitchService.getAccessToken env userId w).2.users = w.users)) := by
  constructor
  · intro hle
    apply getAccessToken_cached env userId w user tok huser htok htok0
    simp only [expired, hexp, decide_eq_false_iff_not]
    omega
  · intro hgt
    have hmiss : textTruthy (Database.getTwitchToken w.users env.now userId) = false := by
      have hx : expired env.now user.twitchTokenExpiry = true := by
        simp only [expired, hexp, decide_eq_true_eq]
        exact hgt
      rw [getTwitchToken_of_user _ _ _ _ huser, hx]
      rfl
    have key := getAccessToken_exchange env userId w user huser hmiss
    refine ⟨?_, ?_, ?_⟩
    · rw [key]
      cases env.exchange (.clientCredentials user.twitchClientId user.twitchClientSecret) with
      | error err => rfl
      | ok data =>
        simp only
        cases Database.updateTwitchToken w.users env.updateNow userId
          data.access_token data.expires_in none <;> rfl
    · intro data hdata hprod hsum
      rw [getAccessToken_exchange_ok env userId w user data huser hmiss hdata hprod hsum]
      refine ⟨rfl, ?_⟩
      simp [appTokenTriple]
    · intro err herr
      rw [key, herr]
      exact ⟨rfl, rfl⟩

/-- Witness of C15: the stored token is served at the instant of its expiry, and
one millisecond after it the endpoint is asked and `fresh-token` is returned. -/
theorem getAccessToken_cache_until_expiry_witness :
    TwitchService.getAccessToken
        { now := 1700003600000, updateNow := 1700003600000, exchange := endpointOk } "11111111-1111-4111-8111-111111111111"
        { users := appTokenStore (some "stored-token") (some 1700003600000),
          exchanges := [] }
      = (.ok "stored-token",
          { users := appTokenStore (some "stored-token") (some 1700003600000),
            exchanges := [] }) ∧
    (TwitchService.getAccessToken
        { now := 1700003600001, updateNow := 1700003600002, exchange := endpointOk } "11111111-1111-4111-8111-111111111111"
        { users := appTokenStore (some "stored-token") (some 1700003600000),
          exchanges := [] }).1 = .ok "fresh-token" :=
  ⟨(getAccessToken_cache_until_expiry
        { now := 1700003600000, updateNow := 1700003600000, exchange := endpointOk } "11111111-1111-4111-8111-111111111111"
        { users := appTokenStore (some "stored-token") (some 1700003600000),
          exchanges := [] }
        { sampleUser with
          twitchAccessToken := some "stored-token", twitchTokenExpiry := some 1700003600000 }
        "stored-token" 1700003600000 rfl rfl (by decide) rfl).1 (by decide),
   (((getAccessToken_cache_until_expiry
        { now := 1700003600001, updateNow := 1700003600002, exchange := endpointOk } "11111111-1111-4111-8111-111111111111"
        { users := appTokenStore (some "stored-token") (some 1700003600000),
          exchanges := [] }
        { sampleUser with
          twitchAccessToken := some "stored-token", twitchTokenExpiry := some 1700003600000 }
        "stored-token" 1700003600000 rfl rfl (by decide) rfl).2 (by decide)).2.1
      { access_token := "fresh-token", expires_in := 3600,
        refresh_token := some "fresh-refresh" } rfl (by decide) (by decide)).1⟩

/-- C16 as stated fails on two kinds of grant.  A grant of 9007199254740 seconds
obtained at `1700000000001` is stored with the expiry `9008899254740000`, while
`t0 + n * 1000` is `9008899254740001`; and after a grant of 3600 seconds whose
`access_token` is the empty text, the call at `t0 + 3599 s` asks the endpoint
again. -/
theorem getAccessToken_expiry_rounded :
    appTokenTriple
        (TwitchService.getAccessToken
          { now := 1700000000001, updateNow := 1700000000001, exchange := endpointLong }
          "11111111-1111-4111-8111-111111111111" noTokenWorld).2.users "11111111-1111-4111-8111-111111111111"
      = some (some "fresh-token", some 9008899254740000, none) ∧
    (1700000000001 : Int) + 9007199254740 * 1000 = 9008899254740001 ∧
    (TwitchService.getAccessToken
        { now := 1700000000000 + 3599 * 1000, updateNow := 1700000000000 + 3599 * 1000,
          exchange := endpointEmpty } "11111111-1111-4111-8111-111111111111"
        (TwitchService.getAccessToken
          { now := 1700000000000, updateNow := 1700000000000, exchange := endpointEmpty }
          "11111111-1111-4111-8111-111111111111" noTokenWorld).2).2.exchanges
      = [.clientCredentials "cid" "csec", .clientCredentials "cid" "csec"] := by
  decide

/-- C16 (amended): an app-token exchange performed at `t0` (the clock reading of
the update) that grants `expires_in = n` seconds, with `n * 1000` and
`t0 + n * 1000` at most `2 ^ 53` in magnitude, stores the absolute expiry
`t0 + n * 1000` milliseconds.  A later `getAccessToken` at or before that instant
returns the stored token, when it is not the empty text, with no exchange, and one
after it performs a fresh exchange; with `n = 3600` the call at `t0 + 3599 s` is
served from the store and the call at `t0 + 3601 s` exchanges. -/
theorem getAccessToken_expiry_absolute (env : TokenEnv) (userId : String) (w : TokenWorld)
    (user : User) (data : TokenResponse)
    (huser : w.users userId = some user)
    (hmiss : textTruthy (Database.getTwitchToken w.users env.now userId) = false)
    (hex : env.exchange (.clientCredentials user.twitchClientId user.twitchClientSecret)
      = .ok data)
    (hprod : (data.expires_in * 1000).natAbs ≤ 2 ^ 53)
    (hsum : (env.updateNow + data.expires_in * 1000).natAbs ≤ 2 ^ 53) :
    appTokenTriple (TwitchService.getAccessToken env userId w).2.users userId =
      some (some data.access_token, some (env.updateNow + data.expires_in * 1000), none) ∧
    (data.access_token ≠ "" →
      ∀ env2 : TokenEnv, env2.now ≤ env.updateNow + data.expires_in * 1000 →
        TwitchService.getAccessToken env2 userId (TwitchService.getAccessToken env userId w).2
          = (.ok data.access_token, (TwitchService.getAccessToken env userId w).2)) ∧
    (∀ env2 : TokenEnv, env2.now > env.updateNow + data.expires_in * 1000 →
      (TwitchService.getAccessToken env2 userId
          (TwitchService.getAccessToken env userId w).2).2.exchanges
        = (TwitchService.getAccessToken env userId w).2.exchanges ++
            [.clientCredentials user.twitchClientId user.twitchClientSecret]) ∧
    (data.expires_in = 3600 →
      (data.access_token ≠ "" →
        ∀ env2 : TokenEnv, env2.now = env.updateNow + 3599 * 1000 →
          TwitchService.getAccessToken env2 userId
              (TwitchService.getAccessToken env userId w).2
            = (.ok data.access_token, (TwitchService.getAccessToken env userId w).2)) ∧
      (∀ env2 : TokenEnv, env2.now = env.updateNow + 3601 * 1000 →
        (TwitchService.getAccessToken env2 userId
            (TwitchService.getAccessToken env userId w).2).2.exchanges
          = (TwitchService.getAccessToken env userId w).2.exchanges ++
              [.clientCredentials user.twitchClientId user.twitchClientSecret])) := by
  rw [getAccessToken_exchange_ok env userId w user data huser hmiss hex hprod hsum]
  have hu : (Function.update w.users userId
      (some { user with
        twitchAccessToken := some data.access_token
        twitchTokenExpiry := some (env.updateNow + data.expires_in * 1000)
        twitchRefreshToken := none })) userId
      = some { user with
        twitchAccessToken := some data.access_token
        twitchTokenExpiry := some (env.updateNow + data.expires_in * 1000)
        twitchRefreshToken := none } := by
    simp
  have hcached : data.access_token ≠ "" →
      ∀ env2 : TokenEnv, env2.now ≤ env.updateNow + data.expires_in * 1000 →
      TwitchService.getAccessToken env2 userId
        { users := Function.update w.users userId
            (some { user with
              twitchAccessToken := some data.access_token
              twitchTokenExpiry := some (env.updateNow + data.expires_in * 1000)
              twitchRefreshToken := none })
          exchanges := w.exchanges ++
            [.clientCredentials user.twitchClientId user.twitchClientSecret] }
      = (.ok data.access_token,
        { users := Function.update w.users userId
            (some { user with
              twitchAccessToken := some data.access_token
              twitchTokenExpiry := some (env.updateNow + data.expires_in * 1000)
              twitchRefreshToken := none })
          exchanges := w.exchanges ++
            [.clientCredentials user.twitchClientId user.twitchClientSecret] }) := by
    intro htok env2 hle
    apply getAccessToken_cached env2 userId _ _ data.access_token hu rfl htok
    simp only [expired, decide_eq_false_iff_not]
    omega
  have hfresh : ∀ env2 : TokenEnv, env2.now > env.updateNow + data.expires_in * 1000 →
      (TwitchService.getAccessToken env2 userId
        { users := Function.update w.users userId
            (some { user with
              twitchAccessToken := some data.access_token
              twitchTokenExpiry := some (env.updateNow + data.expires_in * 1000)
              twitchRefreshToken := none })
          exchanges := w.exchanges ++
            [.clientCredentials user.twitchClientId user.twitchClientSecret] }).2.exchanges
      = (w.exchanges ++ [.clientCredentials user.twitchClientId user.twitchClientSecret]) ++
          [.clientCredentials user.twitchClientId user.twitchClientSecret] := by
    intro env2 hgt
    have hmiss2 : textTruthy (Database.getTwitchToken
        (Function.update w.users userId
          (some { user with
            twitchAccessToken := some data.access_token
            twitchTokenExpiry := some (env.updateNow + data.expires_in * 1000)
            twitchRefreshToken := none })) env2.now userId) = false := by
      have hx : expired env2.now (some (env.updateNow + data.expires_in * 1000)) = true := by
        simp only [expired, decide_eq_true_eq]
        exact hgt
      rw [getTwitchToken_of_user _ _ _ _ hu]
      simp only [hx]
      rfl
    rw [getAccessToken_exchange env2 userId _ _ hu hmiss2]
    cases env2.exchange
        (.clientCredentials user.twitchClientId user.twitchClientSecret) with
    | error err => rfl
    | ok data2 =>
      simp only
      cases Database.updateTwitchToken _ env2.updateNow userId
        data2.access_token data2.expires_in none <;> rfl
  refine ⟨by simp [appTokenTriple], hcached, hfresh, ?_⟩
  intro hn
  refine ⟨?_, ?_⟩
  · intro htok env2 h2
    apply hcached htok env2
    rw [h2, hn]; norm_num
  · intro env2 h2
    apply hfresh env2
    rw [h2, hn]; norm_num

/-- Witness of C16 (amended): `fresh-token` is obtained at `t0 = 1700000000000` for
3600 seconds; the stored expiry is `t0 + 3600000`, the call at `t0 + 3599 s`
returns the stored token with no further exchange, the call at `t0 + 3601 s`
exchanges again. -/
theorem getAccessToken_expiry_absolute_witness :
    appTokenTriple issuedWorld.users "11111111-1111-4111-8111-111111111111"
      = some (some "fresh-token", some (1700000000000 + 3600 * 1000), none) ∧
    TwitchService.getAccessToken
        { now := 1700000000000 + 3599 * 1000, updateNow := 1700000000000 + 3599 * 1000,
          exchange := endpointOk } "11111111-1111-4111-8111-111111111111" issuedWorld
      = (.ok "fresh-token", issuedWorld) ∧
    (TwitchService.getAccessToken
        { now := 1700000000000 + 3601 * 1000, updateNow := 1700000000000 + 3601 * 1000,
          exchange := endpointOk } "11111111-1111-4111-8111-111111111111" issuedWorld).2.exchanges
      = issuedWorld.exchanges ++ [.clientCredentials "cid" "csec"] :=
  have h := getAccessToken_expiry_absolute
    { now := 1700000000000, updateNow := 1700000000000, exchange := endpointOk }
    "11111111-1111-4111-8111-111111111111" noTokenWorld sampleUser
    { access_token := "fresh-token", expires_in := 3600,
      refresh_token := some "fresh-refresh" }
    rfl (by decide) rfl (by decide) (by decide)
  ⟨h.1, (h.2.2.2 rfl).1 (by decide) _ rfl, (h.2.2.2 rfl).2 _ rfl⟩

/-- C17: for a known tenant without a user token that the expiry test accepts,
`getUserAccessToken` throws the authorization error in both remaining cases.
Without refresh token on file no exchange is made and the world is unchanged; with
a refresh token whose exchange is rejected, the one refresh exchange is recorded,
the error thrown is the authorization error and not that of the exchange, and the
store is unchanged. -/
theorem getUserAccessToken_authorization_required (env : TokenEnv) (userId : String)
    (w : TokenWorld) (user : User)
    (huser : w.users userId = some user)
    (hnone : textTruthy user.twitchUserAccessToken = false ∨
      ∃ e, user.twitchUserTokenExpiry = some e ∧ env.now > e) :
    (textTruthy user.twitchUserRefreshToken = false →
      TwitchService.getUserAccessToken env userId w
        = (.error TwitchService.authorizationRequired, w)) ∧
    (∀ r err, user.twitchUserRefreshToken = some r → r ≠ "" →
      env.exchange (.refreshToken user.twitchClientId user.twitchClientSecret r)
        = .error err →
      (TwitchService.getUserAccessToken env userId w).1
        = .error TwitchService.authorizationRequired ∧
      (TwitchService.getUserAccessToken env userId w).2.users = w.users ∧
      userTokenTriple (TwitchService.getUserAccessToken env userId w).2.users userId
        = userTokenTriple w.users userId ∧
      (TwitchService.getUserAccessToken env userId w).2.exchanges
        = w.exchanges ++
            [.refreshToken user.twitchClientId user.twitchClientSecret r]) := by
  have hmiss : textTruthy (Database.getUserAccessToken w.users env.now userId) = false := by
    rw [getUserAccessToken_of_user _ _ _ _ huser]
    rcases hnone with h | ⟨e, he, hgt⟩
    · split
      · rfl
      · exact h
    · have hx : expired env.now user.twitchUserTokenExpiry = true := by
        simp only [expired, he, decide_eq_true_eq]
        exact hgt
      rw [hx]
      rfl
  constructor
  · intro href
    simp [TwitchService.getUserAccessToken, Database.getUserById, huser, hmiss, href]
  · intro r err href hr herr
    have ht : textTruthy (some r) = true := by
      simp [textTruthy, hr]
    have hw : TwitchService.getUserAccessToken env userId w
        = (.error TwitchService.authorizationRequired,
            { w with exchanges := w.exchanges ++
                [.refreshToken user.twitchClientId user.twitchClientSecret r] }) := by
      simp [TwitchService.getUserAccessToken, Database.getUserById, huser, hmiss, ht, href,
        herr]
    rw [hw]
    exact ⟨rfl, rfl, rfl, rfl⟩

/-- Witness of C17: the expired user token `old` with no refresh token on file, and
with the refresh token `r-1` and an endpoint that rejects. -/
theorem getUserAccessToken_authorization_required_witness :
    TwitchService.getUserAccessToken
        { now := 1700000000000, updateNow := 1700000000000, exchange := endpointOk } "11111111-1111-4111-8111-111111111111"
        { users := userTokenStore (some "old") (some 1690000000000) none, exchanges := [] }
      = (.error TwitchService.authorizationRequired,
          { users := userTokenStore (some "old") (some 1690000000000) none,
            exchanges := [] }) ∧
    (TwitchService.getUserAccessToken
        { now := 1700000000000, updateNow := 1700000000000, exchange := endpointRejects }
        "11111111-1111-4111-8111-111111111111"
        { users := userTokenStore (some "old") (some 1690000000000) (some "r-1"),
          exchanges := [] }).1
      = .error TwitchService.authorizationRequired :=
  ⟨(getUserAccessToken_authorization_required
      { now := 1700000000000, updateNow := 1700000000000, exchange := endpointOk } "11111111-1111-4111-8111-111111111111"
      { users := userTokenStore (some "old") (some 1690000000000) none, exchanges := [] }
      { sampleUser with
        twitchUserAccessToken := some "old", twitchUserTokenExpiry := some 1690000000000 }
      rfl (Or.inr ⟨1690000000000, rfl, by decide⟩)).1 rfl,
   ((getUserAccessToken_authorization_required
      { now := 1700000000000, updateNow := 1700000000000, exchange := endpointRejects } "11111111-1111-4111-8111-111111111111"
      { users := userTokenStore (some "old") (some 1690000000000) (some "r-1"),
        exchanges := [] }
      { sampleUser with
        twitchUserAccessToken := some "old", twitchUserTokenExpiry := some 1690000000000,
        twitchUserRefreshToken := some "r-1" }
      rfl (Or.inr ⟨1690000000000, rfl, by decide⟩)).2 "r-1"
        (.error "Request failed with status code 400") rfl (by decide) rfl).1⟩

/-- C18 as stated fails on two kinds of refresh.  A refresh at `1700000000001`
granting 9007199254740 seconds is stored with the expiry `9008899254740000`, while
`now + expires_in * 1000` is `9008899254740001`; and after a refresh whose
`access_token` is the empty text, a call one second later, before the new expiry,
asks the endpoint again. -/
theorem getUserAccessToken_refresh_rounded :
    userTokenTriple
        (TwitchService.getUserAccessToken
          { now := 1700000000001, updateNow := 1700000000001, exchange := endpointLong }
          "11111111-1111-4111-8111-111111111111"
          { users := userTokenStore (some "old") (some 1690000000000) (some "r-1"),
            exchanges := [] }).2.users "11111111-1111-4111-8111-111111111111"
      = some (some "fresh-token", some 9008899254740000, some "fresh-refresh") ∧
    (1700000000001 : Int) + 9007199254740 * 1000 = 9008899254740001 ∧
    (TwitchService.getUserAccessToken
        { now := 1700000001000, updateNow := 1700000001000, exchange := endpointEmpty }
        "11111111-1111-4111-8111-111111111111"
        (TwitchService.getUserAccessToken
          { now := 1700000000000, updateNow := 1700000000000, exchange := endpointEmpty }
          "11111111-1111-4111-8111-111111111111"
          { users := userTokenStore (some "old") (some 1690000000000) (some "r-1"),
            exchanges := [] }).2).2.exchanges
      = [.refreshToken "cid" "csec" "r-1", .refreshToken "cid" "csec" "fresh-refresh"] := by
  decide

/-- C18 (amended): for a known tenant without a user token that the expiry test
accepts and with a refresh token on file, when the refresh exchange succeeds with
`(access_token, expires_in, refresh_token)`, where `expires_in * 1000` and
`updateNow + expires_in * 1000` are at most `2 ^ 53` in magnitude,
`getUserAccessToken` records the one exchange, stores the triple `(access_token,
updateNow + expires_in * 1000, refresh_token)` as the user-token fields and returns
`access_token`; a later call at or before the new expiry returns that token, when
it is not the empty text, and changes nothing. -/
theorem getUserAccessToken_refresh (env : TokenEnv) (userId : String) (w : TokenWorld)
    (user : User) (r : String) (data : TokenResponse)
    (huser : w.users userId = some user)
    (hnone : textTruthy user.twitchUserAccessToken = false ∨
      ∃ e, user.twitchUserTokenExpiry = some e ∧ env.now > e)
    (href : user.twitchUserRefreshToken = some r) (hr : r ≠ "")
    (hex : env.exchange (.refreshToken user.twitchClientId user.twitchClientSecret r)
      = .ok data)
    (hprod : (data.expires_in * 1000).natAbs ≤ 2 ^ 53)
    (hsum : (env.updateNow + data.expires_in * 1000).natAbs ≤ 2 ^ 53) :
    (TwitchService.getUserAccessToken env userId w).1 = .ok data.access_token ∧
    userTokenTriple (TwitchService.getUserAccessToken env userId w).2.users userId =
      some (some data.access_token, some (env.updateNow + data.expires_in * 1000),
        data.refresh_token) ∧
    (TwitchService.getUserAccessToken env userId w).2.exchanges =
      w.exchanges ++ [.refreshToken user.twitchClientId user.twitchClientSecret r] ∧
    (data.access_token ≠ "" →
      ∀ env2 : TokenEnv, env2.now ≤ env.updateNow + data.expires_in * 1000 →
        TwitchService.getUserAccessToken env2 userId
            (TwitchService.getUserAccessToken env userId w).2
          = (.ok data.access_token, (TwitchService.getUserAccessToken env userId w).2)) := by
  have hmiss : textTruthy (Database.getUserAccessToken w.users env.now userId) = false := by
    rw [getUserAccessToken_of_user _ _ _ _ huser]
    rcases hnone with h | ⟨e, he, hgt⟩
    · split
      · rfl
      · exact h
    · have hx : expired env.now user.twitchUserTokenExpiry = true := by
        simp only [expired, he, decide_eq_true_eq]
        exact hgt
      rw [hx]
      rfl
  have ht : textTruthy (some r) = true := by
    simp [textTruthy, hr]
  have hupd := updateUserAccessToken_of_user w.users env.updateNow userId data.access_token
    data.expires_in data.refresh_token user huser _ (bigintParam_tokenExpiry _ _ hprod hsum)
  have hw : TwitchService.getUserAccessToken env userId w
      = (.ok data.access_token,
          { users := Function.update w.users userId
              (some { user with
                twitchUserAccessToken := some data.access_token
                twitchUserTokenExpiry := some (env.updateNow + data.expires_in * 1000)
                twitchUserRefreshToken := data.refresh_token })
            exchanges := w.exchanges ++
              [.refreshToken user.twitchClientId user.twitchClientSecret r] }) := by
    simp [TwitchService.getUserAccessToken, Database.getUserById, huser, hmiss, ht, href, hex,
      hupd]
  rw [hw]
  have hu : (Function.update w.users userId
      (some { user with
        twitchUserAccessToken := some data.access_token
        twitchUserTokenExpiry := some (env.updateNow + data.expires_in * 1000)
        twitchUserRefreshToken := data.refresh_token })) userId
      = some { user with
        twitchUserAccessToken := some data.access_token
        twitchUserTokenExpiry := some (env.updateNow + data.expires_in * 1000)
        twitchUserRefreshToken := data.refresh_token } := by
    simp
  refine ⟨rfl, by simp [userTokenTriple], rfl, ?_⟩
  intro htok env2 hle
  have hx : expired env2.now (some (env.updateNow + data.expires_in * 1000)) = false := by
    simp only [expired, decide_eq_false_iff_not]
    omega
  simp [TwitchService.getUserAccessToken, Database.getUserById, hu,
    getUserAccessToken_of_user _ _ _ _ hu, hx, textTruthy, htok]

/-- Witness of C18 (amended): the expired user token `old` with refresh token `r-1`
is replaced by `fresh-token` at `1700000000000`, stored with expiry `1700003600000`
and refresh token `fresh-refresh`, and served again one second later. -/
theorem getUserAccessToken_refresh_witness :
    (TwitchService.getUserAccessToken
        { now := 1700000000000, updateNow := 1700000000000, exchange := endpointOk } "11111111-1111-4111-8111-111111111111"
        { users := userTokenStore (some "old") (some 1690000000000) (some "r-1"),
          exchanges := [] }).1 = .ok "fresh-token" ∧
    userTokenTriple
        (TwitchService.getUserAccessToken
          { now := 1700000000000, updateNow := 1700000000000, exchange := endpointOk } "11111111-1111-4111-8111-111111111111"
          { users := userTokenStore (some "old") (some 1690000000000) (some "r-1"),
            exchanges := [] }).2.users "11111111-1111-4111-8111-111111111111"
      = some (some "fresh-token", some (1700000000000 + 3600 * 1000), some "fresh-refresh") ∧
    (TwitchService.getUserAccessToken
        { now := 1700000001000, updateNow := 1700000001000, exchange := endpointRejects }
        "11111111-1111-4111-8111-111111111111"
        (TwitchService.getUserAccessToken
          { now := 1700000000000, updateNow := 1700000000000, exchange := endpointOk } "11111111-1111-4111-8111-111111111111"
          { users := userTokenStore (some "old") (some 1690000000000) (some "r-1"),
            exchanges := [] }).2).1 = .ok "fresh-token" :=
  have h := getUserAccessToken_refresh
    { now := 1700000000000, updateNow := 1700000000000, exchange := endpointOk } "11111111-1111-4111-8111-111111111111"
    { users := userTokenStore (some "old") (some 1690000000000) (some "r-1"),
      exchanges := [] }
    { sampleUser with
      twitchUserAccessToken := some "old", twitchUserTokenExpiry := some 1690000000000,
      twitchUserRefreshToken := some "r-1" }
    "r-1"
    { access_token := "fresh-token", expires_in := 3600,
      refresh_token := some "fresh-refresh" }
    rfl (Or.inr ⟨1690000000000, rfl, by decide⟩) rfl (by decide) rfl (by decide) (by decide)
  ⟨h.1, h.2.1,
    congrArg Prod.fst (h.2.2.2 (by decide)
      { now := 1700000001000, updateNow := 1700000001000, exchange := endpointRejects }
      (by decide))⟩

/-! ### Listeners -/

theorem writesTo_append (c : Nat) (l m : List (Nat × String)) :
    writesTo c (l ++ m) = writesTo c l ++ writesTo c m := by
  simp [writesTo]

theorem writesTo_broadcast (c : Nat) (chunk : String) (clients : List Nat) :
    writesTo c (clients.map (fun client => (client, chunk)))
      = List.replicate (clients.count c) chunk := by
  induction clients with
  | nil => rfl
  | cons a rest ih =>
    simp only [writesTo] at ih
    by_cases h : a = c
    · simp [writesTo, h, ih, List.replicate_succ]
    · simp [writesTo, h, ih, List.count_cons]

theorem clientsOf_closeHandler (u : String) (res : Nat) (w : World) :
    clientsOf (closeHandler u res w) u = (clientsOf w u).erase res := by
  unfold closeHandler clientsOf
  cases h : w.eventClients u with
  | none => simp [h]
  | some l => simp

theorem clientsOf_streamHandler (env : Env) (u : String) (res : Nat) (w : World)
    (user : User) (huser : env.getUserById u = .ok (some user)) :
    clientsOf (streamHandler env u res w).2 u = clientsOf w u ++ [res] := by
  simp [streamHandler, huser, clientsOf]

/-- C19: for a tenant whose listener list has no repetition, `addEvent` appends to
the log of writes one chunk for each listener of the tenant, in the order of the
list (the order of registration, since the stream route pushes at the end).  The
chunk is the text `data: `, the JSON text of the event object `{id, eventType,
timestamp, data, userName}` and two line feeds.  Each listener of the tenant
receives this chunk exactly once, a client that is not in the list of the tenant
(such as a listener of another tenant only) receives nothing, and a listener
removed by its close handler before the call receives nothing.  The listener lists
themselves are unchanged. -/
theorem addEvent_broadcast (u : String) (e : Event) (w : World)
    (hnd : (clientsOf w u).Nodup) :
    (addEvent u e w).written
      = w.written ++ (clientsOf w u).map (fun client =>
          (client,
            "data: " ++
              stringifyText (obj [("id", str e.id), ("eventType", str e.eventType),
                ("timestamp", str e.timestamp), ("data", obj e.data),
                ("userName", e.userName)]) ++ "\n\n")) ∧
    (∀ c ∈ clientsOf w u,
      writesTo c (addEvent u e w).written
        = writesTo c w.written ++
            ["data: " ++
              stringifyText (obj [("id", str e.id), ("eventType", str e.eventType),
                ("timestamp", str e.timestamp), ("data", obj e.data),
                ("userName", e.userName)]) ++ "\n\n"]) ∧
    (∀ c, c ∉ clientsOf w u →
      writesTo c (addEvent u e w).written = writesTo c w.written) ∧
    (∀ c, writesTo c (addEvent u e (closeHandler u c w)).written = writesTo c w.written) ∧
    (∀ (env : Env) (res : Nat) (user : User), env.getUserById u = .ok (some user) →
      clientsOf (streamHandler env u res w).2 u = clientsOf w u ++ [res]) ∧
    (addEvent u e w).eventClients = w.eventClients := by
  have hw : ∀ w1 : World, (addEvent u e w1).written
      = w1.written ++ (clientsOf w1 u).map (fun client => (client, sseChunk e)) := by
    intro w1; rfl
  refine ⟨hw w, ?_, ?_, ?_, ?_, rfl⟩
  · intro c hc
    rw [hw, writesTo_append, writesTo_broadcast, List.count_eq_one_of_mem hnd hc]
    rfl
  · intro c hc
    rw [hw, writesTo_append, writesTo_broadcast, List.count_eq_zero_of_not_mem hc]
    simp
  · intro c
    have hnot : c ∉ clientsOf (closeHandler u c w) u := by
      rw [clientsOf_closeHandler]
      intro hmem
      exact ((List.Nodup.mem_erase_iff hnd).1 hmem).1 rfl
    have hsame : (closeHandler u c w).written = w.written := by
      unfold closeHandler
      cases w.eventClients u <;> rfl
    rw [hw, writesTo_append, writesTo_broadcast, List.count_eq_zero_of_not_mem hnot, hsame]
    simp
  · intro env res user huser
    exact clientsOf_streamHandler env u res w user huser

/-- Witness of C19: with clients 7, 8, 9 listening to `sampleUser` and client 5 to a
second tenant, the follow event numbered 1 of `sampleUser` is written once to 7, 8
and 9 in this order, as the chunk spelled out here, and not to 5. -/
theorem addEvent_broadcast_witness :
    (addEvent "11111111-1111-4111-8111-111111111111" (sampleEvent 1) listenersWorld).written
      = [(7, "data: \x7b\"id\":\"1\",\"eventType\":\"follow\",\"timestamp\":\"2023-11-14T22:13:20.000Z\",\"data\":\x7b\"userName\":\"bob\",\"userId\":\"1\"\x7d,\"userName\":\"bob\"\x7d\n\n"),
         (8, "data: \x7b\"id\":\"1\",\"eventType\":\"follow\",\"timestamp\":\"2023-11-14T22:13:20.000Z\",\"data\":\x7b\"userName\":\"bob\",\"userId\":\"1\"\x7d,\"userName\":\"bob\"\x7d\n\n"),
         (9, "data: \x7b\"id\":\"1\",\"eventType\":\"follow\",\"timestamp\":\"2023-11-14T22:13:20.000Z\",\"data\":\x7b\"userName\":\"bob\",\"userId\":\"1\"\x7d,\"userName\":\"bob\"\x7d\n\n")] ∧
    writesTo 5
        (addEvent "11111111-1111-4111-8111-111111111111" (sampleEvent 1)
          listenersWorld).written = [] :=
  have h := addEvent_broadcast "11111111-1111-4111-8111-111111111111" (sampleEvent 1)
    listenersWorld (by decide)
  ⟨h.1.trans (by decide), h.2.2.1 5 (by decide)⟩

/-- C20: for a tenant whose listener list has no repetition, the close handler of a
listener removes that listener and keeps the others in their order; run a second
time it changes nothing, and for a listener that is not in the list it changes
nothing.  The lists of other tenants are untouched. -/
theorem closeHandler_idempotent (u : String) (res : Nat) (w : World)
    (hnd : (clientsOf w u).Nodup) :
    clientsOf (closeHandler u res w) u = (clientsOf w u).filter (fun c => c != res) ∧
    res ∉ clientsOf (closeHandler u res w) u ∧
    closeHandler u res (closeHandler u res w) = closeHandler u res w ∧
    (res ∉ clientsOf w u → closeHandler u res w = w) ∧
    (∀ v, v ≠ u → (closeHandler u res w).eventClients v = w.eventClients v) := by
  have hnot : res ∉ (clientsOf w u).erase res := by
    intro hmem
    exact ((List.Nodup.mem_erase_iff hnd).1 hmem).1 rfl
  have hfix : ∀ w1 : World, res ∉ clientsOf w1 u → closeHandler u res w1 = w1 := by
    intro w1 h1
    unfold closeHandler
    cases h : w1.eventClients u with
    | none => rfl
    | some l =>
      have hl : res ∉ l := by simpa [clientsOf, h] using h1
      simp only [List.erase_of_not_mem hl]
      rw [← h, Function.update_eq_self]
  refine ⟨?_, ?_, ?_, hfix w, ?_⟩
  · rw [clientsOf_closeHandler, hnd.erase_eq_filter]
  · rw [clientsOf_closeHandler]; exact hnot
  · apply hfix
    rw [clientsOf_closeHandler]; exact hnot
  · intro v hv
    unfold closeHandler
    cases w.eventClients u with
    | none => rfl
    | some l => simp [Function.update, hv]

/-- Witness of C20: closing client 8 of `[7, 8, 9]` leaves `[7, 9]`, and closing it
again changes nothing. -/
theorem closeHandler_idempotent_witness :
    clientsOf (closeHandler "11111111-1111-4111-8111-111111111111" 8 listenersWorld) "11111111-1111-4111-8111-111111111111" = [7, 9] ∧
    closeHandler "11111111-1111-4111-8111-111111111111" 8 (closeHandler "11111111-1111-4111-8111-111111111111" 8 listenersWorld)
      = closeHandler "11111111-1111-4111-8111-111111111111" 8 listenersWorld :=
  have h := closeHandler_idempotent "11111111-1111-4111-8111-111111111111" 8 listenersWorld (by decide)
  ⟨h.1, h.2.2.1⟩

/-! ### Invariants of the reachable worlds -/

/-- The stream route keeps a listener list free of repetition when the response
object of the new connection is not yet in it. -/
theorem streamHandler_nodup (env : Env) (u : String) (res : Nat) (w : World)
    (hnd : (clientsOf w u).Nodup) (hfresh : res ∉ clientsOf w u) :
    (clientsOf (streamHandler env u res w).2 u).Nodup := by
  cases h : env.getUserById u with
  | error err =>
    have hw : (streamHandler env u res w).2 = w := by simp [streamHandler, h]
    rw [hw]; exact hnd
  | ok found =>
    cases found with
    | none =>
      have hw : (streamHandler env u res w).2 = w := by simp [streamHandler, h]
      rw [hw]; exact hnd
    | some user =>
      rw [clientsOf_streamHandler env u res w user h, List.nodup_append]
      refine ⟨hnd, List.nodup_singleton _, ?_⟩
      intro x hx hx1
      rw [List.mem_singleton.1 hx1] at hx
      exact hfresh hx

/-- The close handler keeps a listener list free of repetition. -/
theorem closeHandler_nodup (u : String) (res : Nat) (w : World)
    (hnd : (clientsOf w u).Nodup) : (clientsOf (closeHandler u res w) u).Nodup := by
  rw [clientsOf_closeHandler]
  exact hnd.erase res

/-- The switch stores one of the five event type tags. -/
theorem switchType_tag (ty : JsVal) (e : List (String × JsVal)) (ed : EventData)
    (h : switchType ty (obj e) = .ok (some ed)) : ed.eventType ∈ eventTags := by
  by_cases hsup : ∃ t ∈ supportedTypes, ty = str t
  · obtain ⟨t, ht, rfl⟩ := hsup
    simp only [supportedTypes, List.mem_cons, List.mem_singleton, List.not_mem_nil,
      or_false] at ht
    rcases ht with rfl | rfl | rfl | rfl | rfl
    · rw [switchType_subscribe] at h
      injection h with h1; injection h1 with h2; subst h2; simp [eventTags]
    · rw [switchType_gift] at h
      injection h with h1; injection h1 with h2; subst h2; simp [eventTags]
    · rw [switchType_cheer] at h
      injection h with h1; injection h1 with h2; subst h2; simp [eventTags]
    · rw [switchType_raid] at h
      injection h with h1; injection h1 with h2; subst h2; simp [eventTags]
    · rw [switchType_follow] at h
      injection h with h1; injection h1 with h2; subst h2; simp [eventTags]
  · have hno : ∀ t ∈ supportedTypes, ty ≠ str t := fun t ht heq => hsup ⟨t, ht, heq⟩
    rw [switchType_unsupported ty (obj e) hno] at h
    injection h with h1
    exact absurd h1 (by simp)

/-! ### Unparseable timestamps -/

/-- C21 (code defect): a timestamp header that does not parse to a valid date does
not make `verifySignature` return false.  The time value is `NaN`, the comparison
`Math.abs(now - NaN) > tenMinutesInMs` is false, so the window test lets the
request through, and with the HMAC of `messageId + timestamp + body` as signature
header the function returns true, whatever the clock reads. -/
theorem verifySignature_unparseable_timestamp (P : Platform) (now : Int) (req : Request)
    (secret : String) (mid ts sig : String)
    (hmid : req.headers "twitch-eventsub-message-id" = some mid) (hmid0 : mid ≠ "")
    (hts : req.headers "twitch-eventsub-message-timestamp" = some ts) (hts0 : ts ≠ "")
    (hsig : req.headers "twitch-eventsub-message-signature" = some sig) (hsig0 : sig ≠ "")
    (hparse : P.dateParse ts = none)
    (hcorrect : sig =
      "sha256=" ++ P.hmacSha256Hex secret (mid ++ ts ++ stringifyText req.body)) :
    (verifySignature P now req secret).1 = .ok true := by
  rw [verifySignature_present P now req secret mid ts sig hmid hmid0 hts hts0 hsig hsig0,
    hparse, hcorrect]
  simp [outsideWindow, hmacMessage, timingSafeEqual_self]

/-- Witness of C21: the cheer message with the timestamp header `not-a-date` and
the signature expected for it is accepted. -/
theorem verifySignature_unparseable_timestamp_witness :
    (verifySignature samplePlatform 1700000000000
        (sampleRequest "notification" undatedCheerSignature "not-a-date" cheerBody)
        "s3cret").1 = .ok true :=
  verifySignature_unparseable_timestamp samplePlatform 1700000000000
    (sampleRequest "notification" undatedCheerSignature "not-a-date" cheerBody) "s3cret"
    "msg-1" "not-a-date" undatedCheerSignature
    (by decide) (by decide) (by decide) (by decide) (by decide) (by decide) (by decide)
    (by decide)

/-! ### Tenant isolation -/

theorem statsHandler_congr (env : Env) (v : String) (w1 w2 : World)
    (h : w1.recentEvents v = w2.recentEvents v) :
    statsHandler env v w1 = statsHandler env v w2 := by
  simp only [statsHandler, h]

/-- C22: for distinct tenant ids `u` and `v`, `addEvent(u, event)` leaves the
event buffer and the listener list of `v` unchanged, so the snapshot and the stats
response of `v` are the same before and after. -/
theorem addEvent_isolation (u v : String) (e : Event) (w : World) (env : Env)
    (hne : v ≠ u) :
    (addEvent u e w).recentEvents v = w.recentEvents v ∧
    (addEvent u e w).eventClients v = w.eventClients v ∧
    snapshot (addEvent u e w) v = snapshot w v ∧
    clientsOf (addEvent u e w) v = clientsOf w v ∧
    statsHandler env v (addEvent u e w) = statsHandler env v w := by
  have h := snapshot_addEvent_other u v e w hne
  refine ⟨h, rfl, ?_, rfl, statsHandler_congr env v _ _ h⟩
  simp only [snapshot, h]

/-- Witness of C22: an event of `sampleUser` leaves the snapshot and the listener
list of the second tenant as they were. -/
theorem addEvent_isolation_witness :
    snapshot (addEvent "11111111-1111-4111-8111-111111111111" (sampleEvent 1) twoTenantWorld) "22222222-2222-4222-8222-222222222222" = statsBuffer ∧
    clientsOf (addEvent "11111111-1111-4111-8111-111111111111" (sampleEvent 1) twoTenantWorld) "22222222-2222-4222-8222-222222222222" = [5] :=
  have h := addEvent_isolation "11111111-1111-4111-8111-111111111111" "22222222-2222-4222-8222-222222222222" (sampleEvent 1) twoTenantWorld
    (sampleEnv 1700000000000 sinkOk) (by decide)
  ⟨h.2.2.1, h.2.2.2.1⟩

/-! ### Independence of the two token classes -/

/-- C23: for a tenant record in the table, an `updateTwitchToken` that succeeds
replaces the three app-token fields of that record (by the token, the expiry the
column took and the refresh token) and nothing else (in particular the user-token
fields are as before), an `updateUserAccessToken` that succeeds replaces the three
user-token fields and nothing else (in particular the app-token fields are as
before), and both leave the records of all other tenants as they were.  Both
succeed, with the expiry `dateNow + n * 1000`, when `n * 1000` and that sum are at
most `2 ^ 53` in magnitude; an update that throws changes nothing. -/
theorem update_tokens_independent (db : Store) (dateNow : Int) (userId tok : String)
    (n : Int) (r : Option String) (user : User) (huser : db userId = some user) :
    (∀ db1, Database.updateTwitchToken db dateNow userId tok n r = .ok db1 →
      (∃ e, bigintParam (tokenExpiry dateNow n) = .ok e ∧
        db1 userId =
          some { user with
            twitchAccessToken := some tok
            twitchTokenExpiry := some e
            twitchRefreshToken := r }) ∧
      userTokenTriple db1 userId = userTokenTriple db userId ∧
      (∀ v, v ≠ userId → db1 v = db v)) ∧
    (∀ db1, Database.updateUserAccessToken db dateNow userId tok n r = .ok db1 →
      (∃ e, bigintParam (tokenExpiry dateNow n) = .ok e ∧
        db1 userId =
          some { user with
            twitchUserAccessToken := some tok
            twitchUserTokenExpiry := some e
            twitchUserRefreshToken := r }) ∧
      appTokenTriple db1 userId = appTokenTriple db userId ∧
      (∀ v, v ≠ userId → db1 v = db v)) ∧
    ((n * 1000).natAbs ≤ 2 ^ 53 → (dateNow + n * 1000).natAbs ≤ 2 ^ 53 →
      Database.updateTwitchToken db dateNow userId tok n r =
        .ok (Function.update db userId
          (some { user with
            twitchAccessToken := some tok
            twitchTokenExpiry := some (dateNow + n * 1000)
            twitchRefreshToken := r })) ∧
      Database.updateUserAccessToken db dateNow userId tok n r =
        .ok (Function.update db userId
          (some { user with
            twitchUserAccessToken := some tok
            twitchUserTokenExpiry := some (dateNow + n * 1000)
            twitchUserRefreshToken := r }))) := by
  refine ⟨?_, ?_, ?_⟩
  · intro db1 hok
    obtain ⟨e, he⟩ := updateTwitchToken_ok db db1 dateNow userId tok n r hok
    rw [updateTwitchToken_of_user db dateNow userId tok n r user huser e he] at hok
    have hdb : db1 = Function.update db userId
        (some { user with
          twitchAccessToken := some tok
          twitchTokenExpiry := some e
          twitchRefreshToken := r }) := by
      injection hok with h
      exact h.symm
    subst hdb
    refine ⟨⟨e, he, by simp⟩, ?_, ?_⟩
    · simp [userTokenTriple, huser]
    · intro v hv
      simp [Function.update, hv]
  · intro db1 hok
    obtain ⟨e, he⟩ := updateUserAccessToken_ok db db1 dateNow userId tok n r hok
    rw [updateUserAccessToken_of_user db dateNow userId tok n r user huser e he] at hok
    have hdb : db1 = Function.update db userId
        (some { user with
          twitchUserAccessToken := some tok
          twitchUserTokenExpiry := some e
          twitchUserRefreshToken := r }) := by
      injection hok with h
      exact h.symm
    subst hdb
    refine ⟨⟨e, he, by simp⟩, ?_, ?_⟩
    · simp [appTokenTriple, huser]
    · intro v hv
      simp [Function.update, hv]
  · intro hprod hsum
    exact ⟨updateTwitchToken_of_user db dateNow userId tok n r user huser _
        (bigintParam_tokenExpiry _ _ hprod hsum),
      updateUserAccessToken_of_user db dateNow userId tok n r user huser _
        (bigintParam_tokenExpiry _ _ hprod hsum)⟩

/-- Witness of C23: storing the app token `app-new` for `tokenUser` succeeds and
keeps its user-token triple, and storing the user token `user-new` succeeds and
keeps its app-token triple. -/
theorem update_tokens_independent_witness :
    Database.updateTwitchToken twoTenantStore 1700000000000 "11111111-1111-4111-8111-111111111111" "app-new" 3600 none
      = .ok appUpdatedStore ∧
    userTokenTriple appUpdatedStore "11111111-1111-4111-8111-111111111111"
      = some (some "user-old", some 1690000000000, some "r-1") ∧
    Database.updateUserAccessToken twoTenantStore 1700000000000 "11111111-1111-4111-8111-111111111111" "user-new" 3600
        (some "r-2")
      = .ok userUpdatedStore ∧
    appTokenTriple userUpdatedStore "11111111-1111-4111-8111-111111111111"
      = some (some "app-old", some 1690000000000, none) :=
  have h := update_tokens_independent twoTenantStore 1700000000000 "11111111-1111-4111-8111-111111111111" "app-new" 3600 none
    tokenUser rfl
  have h2 := update_tokens_independent twoTenantStore 1700000000000 "11111111-1111-4111-8111-111111111111" "user-new" 3600
    (some "r-2") tokenUser rfl
  ⟨(h.2.2 (by decide) (by decide)).1,
   ((h.1 appUpdatedStore (h.2.2 (by decide) (by decide)).1).2.1).trans (by rfl),
   (h2.2.2 (by decide) (by decide)).2,
   ((h2.2.1 userUpdatedStore (h2.2.2 (by decide) (by decide)).2).2.1).trans (by rfl)⟩

/-! ### The display name -/

theorem truthy_or (a b : JsVal) (hb : b.truthy = true) : (JsVal.or a b).truthy = true := by
  unfold JsVal.or
  split
  · assumption
  · exact hb

/-- C24: the `userName` of the event the webhook handler stores is `data.userName`
when that is truthy (for a text: non-empty), otherwise `data.fromBroadcasterName`
when that is truthy, otherwise the text `Anonymous`; it is never falsy, so neither
`undefined` nor the empty text; for a raid event it is the name of the raiding
broadcaster when the platform event carries a non-empty one, `Anonymous` otherwise. -/
theorem eventForDashboard_userName (P : Platform) (env : Env) (ed : EventData) :
    (eventForDashboard P env ed).userName =
      (if (lookup "userName" ed.data).truthy then lookup "userName" ed.data
       else if (lookup "fromBroadcasterName" ed.data).truthy then
         lookup "fromBroadcasterName" ed.data
       else str "Anonymous") ∧
    (eventForDashboard P env ed).userName.truthy = true ∧
    (eventForDashboard P env ed).userName ≠ undefined ∧
    (eventForDashboard P env ed).userName ≠ str "" ∧
    (∀ s : String, (str s).truthy = true ↔ s ≠ "") ∧
    (∀ e : List (String × JsVal),
      switchType (str "channel.raid") (obj e) = .ok (some ed) →
        (eventForDashboard P env ed).userName =
          if (lookup "from_broadcaster_user_name" e).truthy then
            lookup "from_broadcaster_user_name" e
          else str "Anonymous") := by
  have htruthy : (eventForDashboard P env ed).userName.truthy = true := by
    simp only [eventForDashboard]
    apply truthy_or
    apply truthy_or
    rfl
  refine ⟨?_, htruthy, ?_, ?_, ?_, ?_⟩
  · simp only [eventForDashboard, JsVal.or]
  · intro h
    rw [h] at htruthy
    exact absurd htruthy (by simp [truthy])
  · intro h
    rw [h] at htruthy
    exact absurd htruthy (by simp [truthy])
  · intro s
    simp [truthy]
  · intro e h
    rw [switchType_raid] at h
    injection h with h1
    injection h1 with h2
    subst h2
    simp [eventForDashboard, JsVal.or, lookup, truthy]

/-! ### updateUser -/

theorem foldl_updateStep (lower : String → String) (updates : List (String × JsVal)) :
    ∀ st : UpdateState,
      updates.foldl (updateStep lower) st =
        { fields := st.fields ++ setItems lower st.paramIndex (allowedEntries lower updates)
          values := st.values ++ (allowedEntries lower updates).map Prod.snd
          paramIndex := st.paramIndex + (allowedEntries lower updates).length } := by
  induction updates with
  | nil => intro st; simp [allowedEntries, setItems]
  | cons entry rest ih =>
    intro st
    rw [List.foldl_cons, ih]
    by_cases h : allowedFields.contains (dbKeyOf lower entry.1) = true
    · simp only [updateStep, h, if_true, allowedEntries, List.filter_cons, setItems,
        List.map_cons, List.length_cons, List.append_assoc, List.singleton_append]
      congr 1
      omega
    · simp only [updateStep, h, allowedEntries, List.filter_cons]
      rfl

theorem setItems_allowed (lower : String → String) (entries : List (String × JsVal))
    (h : ∀ entry ∈ entries, dbKeyOf lower entry.1 ∈ allowedFields) :
    ∀ start : Nat, ∀ f ∈ setItems lower start entries,
      ∃ col ∈ allowedFields, ∃ k : Nat, f = col ++ " = $" ++ intRepr k := by
  induction entries with
  | nil => intro start f hf; simp [setItems] at hf
  | cons entry rest ih =>
    intro start f hf
    simp only [setItems, List.mem_cons] at hf
    rcases hf with hf | hf
    · exact ⟨_, h entry (List.mem_cons_self _ _), start, hf⟩
    · exact ih (fun x hx => h x (List.mem_cons_of_mem _ hx)) (start + 1) f hf

theorem allowedEntries_allowed (lower : String → String) (updates : List (String × JsVal)) :
    ∀ entry ∈ allowedEntries lower updates, dbKeyOf lower entry.1 ∈ allowedFields := by
  intro entry h
  have h1 := (List.mem_filter.1 h).2
  simpa using h1

theorem setItems_length (lower : String → String) (entries : List (String × JsVal)) :
    ∀ start : Nat, (setItems lower start entries).length = entries.length := by
  induction entries with
  | nil => intro start; rfl
  | cons entry rest ih => intro start; simp [setItems, ih]

/-- C25: `updateUser` writes only allowed columns.  The `SET` items of the
statement are built from exactly those entries of `updates` whose translated key
is in `allowedFields`, in order and numbered from 1, so every item assigns one of
`minecraft_server_url`, `twitch_client_id`, `twitch_client_secret`, and the values
are those of the same entries followed by the user id.  When no key translates to
an allowed column the function returns false and issues no statement; otherwise it
returns true and issues the one `UPDATE`.  The keys `passwordHash`, `apiKey`,
`eventSubSecret`, `isActive` and the six token fields translate to columns outside
the list. -/
theorem updateUser_allow_list (toLowerCase : String → String) (userId : String)
    (updates : List (String × JsVal)) :
    (updateLoop toLowerCase updates).fields
      = setItems toLowerCase 1 (allowedEntries toLowerCase updates) ∧
    (updateLoop toLowerCase updates).values
      = (allowedEntries toLowerCase updates).map Prod.snd ∧
    (∀ f ∈ (updateLoop toLowerCase updates).fields,
      ∃ col ∈ allowedFields, ∃ k : Nat, f = col ++ " = $" ++ intRepr k) ∧
    ((∀ entry ∈ updates, dbKeyOf toLowerCase entry.1 ∉ allowedFields) →
      updateUser toLowerCase userId updates = (false, none)) ∧
    ((∃ entry ∈ updates, dbKeyOf toLowerCase entry.1 ∈ allowedFields) →
      (updateUser toLowerCase userId updates).1 = true ∧
      (updateUser toLowerCase userId updates).2 =
        some { text := "UPDATE users SET " ++
                 ", ".intercalate (setItems toLowerCase 1 (allowedEntries toLowerCase updates))
                 ++ " WHERE user_id = $" ++
                 intRepr ((1 + (allowedEntries toLowerCase updates).length : Nat))
               values := (allowedEntries toLowerCase updates).map Prod.snd ++ [str userId] }) ∧
    (["passwordHash", "apiKey", "eventSubSecret", "isActive", "twitchAccessToken",
      "twitchTokenExpiry", "twitchRefreshToken", "twitchUserAccessToken",
      "twitchUserTokenExpiry", "twitchUserRefreshToken"].all
        (fun key => !allowedFields.contains (dbKeyOf asciiLower key))) = true := by
  have hloop : updateLoop toLowerCase updates =
      { fields := setItems toLowerCase 1 (allowedEntries toLowerCase updates)
        values := (allowedEntries toLowerCase updates).map Prod.snd
        paramIndex := 1 + (allowedEntries toLowerCase updates).length } := by
    rw [updateLoop, foldl_updateStep]
    simp
  refine ⟨by rw [hloop], by rw [hloop], ?_, ?_, ?_, by decide⟩
  · rw [hloop]
    exact setItems_allowed toLowerCase _ (allowedEntries_allowed toLowerCase updates) 1
  · intro hnone
    have hempty : allowedEntries toLowerCase updates = [] := by
      apply List.filter_eq_nil_iff.2
      intro entry hentry
      have := hnone entry hentry
      simpa using this
    simp [updateUser, hloop, hempty, setItems]
  · rintro ⟨entry, hentry, hallowed⟩
    have hmem : entry ∈ allowedEntries toLowerCase updates := by
      apply List.mem_filter.2
      exact ⟨hentry, by simpa using hallowed⟩
    have hlen : (setItems toLowerCase 1 (allowedEntries toLowerCase updates)).length ≠ 0 := by
      rw [setItems_length]
      exact List.length_pos.2 (List.ne_nil_of_mem hmem) |>.ne'
    constructor <;> simp [updateUser, hloop, hlen]

/-- An evaluation of `updateUser`: of the keys `minecraftServerUrl`,
`passwordHash` and `twitchClientId` only the first and the third reach the
statement, and an object with forbidden keys only issues none. -/
theorem updateUser_examples :
    (updateUser asciiLower "11111111-1111-4111-8111-111111111111"
        [("minecraftServerUrl", str "http://mc.example:8080"), ("passwordHash", str "h"),
         ("twitchClientId", str "cid-2")]).2.map Query.text
      = some "UPDATE users SET minecraft_server_url = $1, twitch_client_id = $2 WHERE user_id = $3" ∧
    (updateUser asciiLower "11111111-1111-4111-8111-111111111111"
        [("passwordHash", str "h"), ("apiKey", str "k"), ("eventSubSecret", str "s"),
         ("isActive", bool false), ("twitchAccessToken", str "t")]).1 = false ∧
    ((updateUser asciiLower "11111111-1111-4111-8111-111111111111"
        [("passwordHash", str "h"), ("apiKey", str "k"), ("eventSubSecret", str "s"),
         ("isActive", bool false), ("twitchAccessToken", str "t")]).2.map Query.text)
      = none := by
  decide

end TwitchBackend
